import Mathlib

/-!
Shallow embedding of the command interpretation and execution engine of the
terminal_project repository: the built-in command dispatcher
(`src/commands/command_handler.py`) and the natural-language translator
(`src/utils/nlp_interpreter.py`).

Modelling conventions:
* Python exceptions are values of `PyExn` (class + `str(e)` message); code that
  can raise is typed in `Except PyExn`; `try/except` is explicit matching.
* The operating system (filesystem, subprocess, psutil) is an oracle record
  `Os` of response functions; theorems quantify over all oracles.  The oracle
  is stateless: each primitive's outcome is a function of its arguments only.
* Strings are ASCII-modelled: `str.lower`, whitespace classes and the regex
  classes treat the ASCII subset Python uses for the inputs that occur here.
* Floats never carry logic in the sources (they are only rendered with
  `"%.1f"`); rendering is abstracted by the oracle field `fmt1 : Rat → String`
  and numeric process data is carried as `Rat`.
-/

namespace Terminal

/-- Python exception classes needed by the embedded code. -/
inductive ExnKind where
  | fileNotFoundError
  | notADirectoryError
  | isADirectoryError
  | permissionError
  | fileExistsError
  | osError
  | timeoutExpired
  | noSuchProcess
  | accessDenied
  | zombieProcess
  | otherError
deriving DecidableEq, Repr

/-- A Python exception value: its class and its `str(e)` message. -/
structure PyExn where
  kind : ExnKind
  msg : String
deriving DecidableEq, Repr

/-- Decidable equality for `Except`, so concrete runs can be checked by `decide`. -/
instance [DecidableEq ε] [DecidableEq α] : DecidableEq (Except ε α) := fun x y =>
  match x, y with
  | Except.ok a, Except.ok b =>
    if h : a = b then Decidable.isTrue (congrArg Except.ok h)
    else Decidable.isFalse (fun hh => h (Except.ok.inj hh))
  | Except.error a, Except.error b =>
    if h : a = b then Decidable.isTrue (congrArg Except.error h)
    else Decidable.isFalse (fun hh => h (Except.error.inj hh))
  | Except.ok _, Except.error _ => Decidable.isFalse (fun hh => Except.noConfusion hh)
  | Except.error _, Except.ok _ => Decidable.isFalse (fun hh => Except.noConfusion hh)

/-- The psutil exception classes skipped per-process by `handle_ps` and friends. -/
def psutilSkip (k : ExnKind) : Bool :=
  k == ExnKind.noSuchProcess || k == ExnKind.accessDenied || k == ExnKind.zombieProcess

/-- Python `str` whitespace (the ASCII characters used by `str.split()` / `str.strip()`). -/
def pyIsWs (c : Char) : Bool :=
  c == ' ' || c == '\t' || c == '\n' || c == '\r' || c == '\x0b' || c == '\x0c'

/-- The uppercase-to-lowercase table of ASCII `str.lower`. -/
def ulPairs : List (Char × Char) :=
  [('A', 'a'), ('B', 'b'), ('C', 'c'), ('D', 'd'), ('E', 'e'), ('F', 'f'),
   ('G', 'g'), ('H', 'h'), ('I', 'i'), ('J', 'j'), ('K', 'k'), ('L', 'l'),
   ('M', 'm'), ('N', 'n'), ('O', 'o'), ('P', 'p'), ('Q', 'q'), ('R', 'r'),
   ('S', 's'), ('T', 't'), ('U', 'u'), ('V', 'v'), ('W', 'w'), ('X', 'x'),
   ('Y', 'y'), ('Z', 'z')]

/-- First-match lookup in a character table. -/
def lookupChar : List (Char × Char) → Char → Option Char
  | [], _ => none
  | (k, v) :: t, c => if c = k then some v else lookupChar t c

/-- ASCII `str.lower` on one character. -/
def pyToLower (c : Char) : Char := (lookupChar ulPairs c).getD c

/-- Python `str.lower` (ASCII model). -/
def pyLower (s : String) : String := String.mk (s.data.map pyToLower)

/-- Drop leading whitespace of a character list. -/
def trimLeft (l : List Char) : List Char := l.dropWhile pyIsWs

/-- Drop trailing whitespace of a character list. -/
def trimRight (l : List Char) : List Char := (l.reverse.dropWhile pyIsWs).reverse

/-- Python `str.strip()` (no argument): remove leading and trailing whitespace. -/
def pyStrip (s : String) : String := String.mk (trimRight (trimLeft s.data))

/-- Python `str.rstrip()` (no argument): remove trailing whitespace. -/
def pyRstrip (s : String) : String := String.mk (trimRight s.data)

/-- Python `str.split()` with no separator on a character list: split on
whitespace runs, discarding empty fields (fuelled structural recursion; the
fuel bounds the characters consumed, so `l.length` always suffices). -/
def pySplitF : Nat → List Char → List (List Char)
  | 0, _ => []
  | _ + 1, [] => []
  | fuel + 1, c :: t =>
    if pyIsWs c then pySplitF fuel t
    else (c :: t.takeWhile (fun x => !pyIsWs x)) ::
      pySplitF fuel (t.dropWhile (fun x => !pyIsWs x))

/-- Python `str.split()` with no separator. -/
def pySplit (s : String) : List String :=
  (pySplitF s.data.length s.data).map String.mk

/-- Substring test on character lists (Python `needle in hay`). -/
def containsL (hay needle : List Char) : Bool :=
  needle.isPrefixOf hay ||
    (match hay with
     | [] => false
     | _ :: t => containsL t needle)

/-- Python substring test `needle in hay`. -/
def pyContains (hay needle : String) : Bool := containsL hay.data needle.data

/-- Python `str.startswith`. -/
def pyStartswith (s pre : String) : Bool := pre.data.isPrefixOf s.data

/-- Python `str.replace(old, new)` on character lists (all non-overlapping
occurrences, scanning left to right; `old` is nonempty in every use site). -/
def replaceL (old new : List Char) : Nat → List Char → List Char
  | 0, l => l
  | _ + 1, [] => []
  | fuel + 1, c :: t =>
    if old.isPrefixOf (c :: t) then new ++ replaceL old new fuel ((c :: t).drop old.length)
    else c :: replaceL old new fuel t

/-- Python `str.replace(old, new)`. -/
def pyReplace (s old new : String) : String :=
  String.mk (replaceL old.data new.data s.data.length s.data)

/-- Python `sep.join(xs)`. -/
def pyJoinWith (sep : String) (xs : List String) : String :=
  match xs with
  | [] => ""
  | [x] => x
  | x :: rest => x ++ sep ++ pyJoinWith sep rest

/-- Stable insertion into a list sorted ascending with respect to `le`:
the new element goes after every element `y` with `le y x`. -/
def insertAsc (le : α → α → Bool) (x : α) : List α → List α
  | [] => [x]
  | y :: t => if le y x then y :: insertAsc le x t else x :: y :: t

/-- Stable ascending sort (the semantics of Python `sorted` / `list.sort`). -/
def sortAsc (le : α → α → Bool) (l : List α) : List α :=
  l.foldl (fun acc x => insertAsc le x acc) []

/-- Total order on strings by code points, as Python compares `str`. -/
def strLe (a b : String) : Bool := !(decide (b < a))

/-- Python truthiness of an optional string (`None` and `""` are falsy). -/
def pyOrStr (v : Option String) (alt : String) : String :=
  match v with
  | none => alt
  | some s => if s = "" then alt else s

/-- Python `f"{x}"` of an optional string: `None` renders as `"None"`. -/
def pyFmtOpt (v : Option String) : String :=
  match v with
  | none => "None"
  | some s => s

/-- Left-pad a string with spaces to the given width (Python `f"{n:8d}"` style). -/
def padLeft (w : Nat) (s : String) : String :=
  String.mk (List.replicate (w - s.length) ' ') ++ s

/-- Right-pad a string with spaces to the given width (Python `str.ljust`). -/
def ljust (w : Nat) (s : String) : String :=
  s ++ String.mk (List.replicate (w - s.length) ' ')

/-! Embedding of `difflib.SequenceMatcher` / `difflib.get_close_matches` as
used by the dispatcher (`get_close_matches(cmd, AVAILABLE_COMMANDS.keys(),
n=3, cutoff=0.6)`).  The sequences are short command words, so no junk and no
autojunk heuristics apply.  Ratios are exact rationals; at these string
lengths the binary-float comparisons of the source agree with the rational
comparisons (the gap to the cutoff is always at least `1/(5*T)`). -/

/-- Lookup in a small association list used as `j2len` dictionary. -/
def alistGet (l : List (Nat × Nat)) (k : Nat) : Nat :=
  match l with
  | [] => 0
  | (k', v) :: t => if k' = k then v else alistGet t k

/-- The inner DP of `SequenceMatcher.find_longest_match` restricted to the
range `[alo, ahi) × [blo, bhi)`: returns `(besti, bestj, bestsize)`, the
longest matching block with smallest `i`, then smallest `j` (ties are not
replaced because the update uses a strict comparison and indices ascend). -/
def flm (a b : List Char) (alo ahi blo bhi : Nat) : Nat × Nat × Nat :=
  let step := fun (st : Nat × Nat × Nat × List (Nat × Nat)) (i : Nat) =>
    let ai := a.getD i ' '
    let js := (List.range' blo (bhi - blo)).filter (fun j => b.getD j ' ' == ai)
    let inner := js.foldl
      (fun (st2 : Nat × Nat × Nat × List (Nat × Nat)) (j : Nat) =>
        let k := (if j = 0 then 0 else alistGet st.2.2.2 (j - 1)) + 1
        let nj := (j, k) :: st2.2.2.2
        if st2.2.2.1 < k then (i + 1 - k, j + 1 - k, k, nj)
        else (st2.1, st2.2.1, st2.2.2.1, nj))
      (st.1, st.2.1, st.2.2.1, [])
    inner
  let res := (List.range' alo (ahi - alo)).foldl step (alo, blo, 0, [])
  (res.1, res.2.1, res.2.2.1)

/-- Total size of the matching blocks of `SequenceMatcher.get_matching_blocks`
(the recursion of the source, fuelled; the fuel `ahi + bhi + 1` is an upper
bound on the recursion depth because every recursive call strictly shrinks
the combined range). -/
def matchingTotal (a b : List Char) : Nat → Nat → Nat → Nat → Nat → Nat
  | 0, _, _, _, _ => 0
  | fuel + 1, alo, ahi, blo, bhi =>
    let r := flm a b alo ahi blo bhi
    if r.2.2 = 0 then 0
    else
      r.2.2 + matchingTotal a b fuel alo r.1 blo r.2.1 +
        matchingTotal a b fuel (r.1 + r.2.2) ahi (r.2.1 + r.2.2) bhi

/-- Sum of matching block sizes between two character lists. -/
def matchesM (a b : List Char) : Nat :=
  matchingTotal a b (a.length + b.length + 1) 0 a.length 0 b.length

/-- A ratio `2*m / t` as an exact numerator/denominator pair; the
`_calculate_ratio` helper maps `t = 0` to the value `1`. -/
def calcRatio (m t : Nat) : Nat × Nat := if t = 0 then (1, 1) else (2 * m, t)

/-- `SequenceMatcher.ratio()` for `set_seq1(x), set_seq2(word)`. -/
def smRatio (a b : List Char) : Nat × Nat :=
  calcRatio (matchesM a b) (a.length + b.length)

/-- Multiset intersection size of two character lists (the matches counted by
`SequenceMatcher.quick_ratio`). -/
def msInter (a b : List Char) : Nat :=
  match a with
  | [] => 0
  | c :: t => if c ∈ b then 1 + msInter t (b.erase c) else msInter t b

/-- `SequenceMatcher.quick_ratio()`: upper bound via common character counts. -/
def smQuickRatio (a b : List Char) : Nat × Nat :=
  calcRatio (msInter a b) (a.length + b.length)

/-- `SequenceMatcher.real_quick_ratio()`: upper bound via lengths. -/
def smRealQuickRatio (a b : List Char) : Nat × Nat :=
  calcRatio (min a.length b.length) (a.length + b.length)

/-- Cross-multiplied comparison `cutoff ≤ ratio` for a cutoff `cn/cd`. -/
def cutoffLe (cn cd : Nat) (r : Nat × Nat) : Bool := cn * r.2 ≤ cd * r.1

/-- Cross-multiplied strict comparison of two ratios. -/
def ratioLt (a b : Nat × Nat) : Bool := a.1 * b.2 < b.1 * a.2

/-- Cross-multiplied equality of two ratios. -/
def ratioEqv (a b : Nat × Nat) : Bool := a.1 * b.2 == b.1 * a.2

/-- Descending comparison of `(score, word)` pairs, Python tuple order
(`heapq.nlargest` returns the largest tuples first; the words are distinct,
so the order is total). -/
def scoreGe (x y : (Nat × Nat) × String) : Bool :=
  ratioLt y.1 x.1 || (ratioEqv x.1 y.1 && !(decide (x.2 < y.2)))

/-- `difflib.get_close_matches(word, possibilities, n, cutoff)`: keep the
possibilities whose three ratio bounds all reach the cutoff `cn/cd`, then
the `n` best by `(score, word)` descending.  The dispatcher's call passes
the float cutoff `0.6`; at these string lengths the float comparison agrees
with the exact comparison against `3/5` (the distance between any attainable
ratio and the cutoff exceeds the floating-point error). -/
def get_close_matches (word : String) (possibilities : List String) (n : Nat)
    (cn cd : Nat) : List String :=
  let w := word.data
  let scored := possibilities.filterMap (fun x =>
    let a := x.data
    if cutoffLe cn cd (smRealQuickRatio a w) && cutoffLe cn cd (smQuickRatio a w) &&
        cutoffLe cn cd (smRatio a w)
    then some (smRatio a w, x) else none)
  ((sortAsc scoreGe scored).take n).map (fun p => p.2)

/-! Embedding of the `os.path` functions (POSIX flavour) the handlers use. -/

/-- POSIX `os.path.isabs`. -/
def isabs (p : String) : Bool := pyStartswith p "/"

/-- POSIX `os.path.join` for two components. -/
def pyPathJoin (a b : String) : String :=
  if isabs b then b
  else if a = "" ∨ a.endsWith "/" then a ++ b
  else a ++ "/" ++ b

/-- POSIX `os.path.dirname`: everything before the last slash, with trailing
slashes stripped from the head unless the head is all slashes. -/
def pyDirname (p : String) : String :=
  let l := p.data
  let i := l.length - (l.reverse.takeWhile (fun c => c ≠ '/')).length
  let head := l.take i
  if head ≠ [] ∧ ¬ head.all (fun c => c = '/') then
    String.mk (head.reverse.dropWhile (fun c => c = '/')).reverse
  else String.mk head

/-- POSIX `os.path.basename`: everything after the last slash. -/
def pyBasename (p : String) : String :=
  String.mk (p.data.reverse.takeWhile (fun c => c ≠ '/')).reverse

/-- Split a character list on a separator character, keeping empty fields
(Python `str.split('/')`). -/
def splitOnChar (sep : Char) (l : List Char) : List (List Char) :=
  match l with
  | [] => [[]]
  | c :: t =>
    let rest := splitOnChar sep t
    if c = sep then [] :: rest
    else
      match rest with
      | [] => [[c]]
      | r :: rs => (c :: r) :: rs

/-- The component loop of `posixpath.normpath`. -/
def normComps (initialSlashes : Bool) (comps : List (List Char)) : List (List Char) :=
  comps.foldl
    (fun newComps comp =>
      if comp = [] ∨ comp = ['.'] then newComps
      else if comp ≠ ['.', '.'] ∨ ((¬ initialSlashes) ∧ newComps = []) ∨
              (newComps ≠ [] ∧ newComps.getLast? = some ['.', '.']) then
        newComps ++ [comp]
      else if newComps ≠ [] then newComps.dropLast
      else newComps)
    []

/-- POSIX `os.path.normpath`. -/
def pyNormpath (p : String) : String :=
  if p = "" then "."
  else
    let l := p.data
    let initialSlashes : Nat :=
      if l.take 1 = ['/'] then
        if l.take 2 = ['/', '/'] ∧ l.take 3 ≠ ['/', '/', '/'] then 2 else 1
      else 0
    let comps := normComps (initialSlashes ≠ 0) (splitOnChar '/' l)
    let core := pyJoinWith "/" (comps.map String.mk)
    let out := String.mk (List.replicate initialSlashes '/') ++ core
    if out = "" then "." else out

/-- POSIX `os.path.abspath` with the process working directory supplied. -/
def pyAbspath (cwd p : String) : String :=
  if isabs p then pyNormpath p else pyNormpath (pyPathJoin cwd p)

/-- Longest common prefix of two lists of path components. -/
def commonPrefixLen (a b : List String) : Nat :=
  match a, b with
  | x :: xs, y :: ys => if x = y then 1 + commonPrefixLen xs ys else 0
  | _, _ => 0

/-- POSIX `os.path.relpath(path, start)` with the process working directory
supplied for making both paths absolute. -/
def pyRelpath (cwd p start : String) : String :=
  let pList := (splitOnChar '/' (pyAbspath cwd p).data).filter (fun x => x ≠ [])
  let sList := (splitOnChar '/' (pyAbspath cwd start).data).filter (fun x => x ≠ [])
  let i := commonPrefixLen (sList.map String.mk) (pList.map String.mk)
  let relList := List.replicate (sList.length - i) ".." ++ (pList.map String.mk).drop i
  if relList = [] then "." else pyJoinWith "/" relList

/-! Oracle model of the operating-system services the handlers call. -/

/-- The pieces of `os.stat` the `ls -l` formatter reads; the
`time.strftime("%b %d %H:%M", ...)` rendering of `st_mtime` is carried as a
string provided by the oracle. -/
structure Stat where
  size : Nat
  mtimeStr : String

/-- A `psutil` process-info record; the float percentages are exact rationals
here and rendered through the oracle's `fmt1`. -/
structure ProcInfo where
  pid : Nat
  cpu : Rat
  mem : Rat
  username : Option String
  name : Option String
  status : Option String

/-- `psutil.virtual_memory()` fields used by the handlers. -/
structure MemInfo where
  total : Nat
  available : Nat
  used : Nat
  free : Nat
  percent : Rat

/-- `psutil.swap_memory()` fields used by the handlers. -/
structure SwapInfo where
  total : Nat
  used : Nat
  free : Nat
  percent : Rat

/-- `psutil.cpu_freq()` field used by `handle_cpu_info`. -/
structure CpuFreq where
  current : Rat

/-- One `(root, dirs, files)` triple yielded by `os.walk`. -/
structure WalkEntry where
  root : String
  dirs : List String
  files : List String

/-- The operating-system oracle: each primitive the handlers call is a
response function; fallible primitives return `Except PyExn`.  Theorems
quantify over all oracles. -/
structure Os where
  home : String
  cwd : String
  isWindows : Bool
  pathExists : String → Bool
  isdir : String → Bool
  listdir : String → Except PyExn (List String)
  statOf : String → Except PyExn Stat
  access : String → Bool
  makedirs : String → Bool → Except PyExn Unit
  rmdirOp : String → Except PyExn Unit
  removeFile : String → Except PyExn Unit
  rmtree : String → Except PyExn Unit
  copy2 : String → String → Except PyExn Unit
  copytree : String → String → Except PyExn Unit
  move : String → String → Except PyExn Unit
  readFile : String → Except PyExn String
  openAppend : String → Except PyExn Unit
  utime : String → Except PyExn Unit
  globMatch : String → List String
  walk : String → List WalkEntry
  reSearch : String → String → Except PyExn Bool
  process_iter : Except PyExn (List (Except PyExn ProcInfo))
  cpu_percent : Except PyExn Rat
  cpu_percent_percpu : Except PyExn (List Rat)
  cpu_count_physical : Except PyExn (Option Nat)
  cpu_count_logical : Except PyExn (Option Nat)
  cpu_freq : Except PyExn (Option CpuFreq)
  virtual_memory : Except PyExn MemInfo
  swap_memory : Except PyExn SwapInfo
  fmt1 : Rat → String

/-- Which exception kinds `except OSError` catches (`TimeoutExpired` and the
psutil classes are not `OSError` subclasses). -/
def isOSError (k : ExnKind) : Bool :=
  k == ExnKind.fileNotFoundError || k == ExnKind.notADirectoryError ||
  k == ExnKind.isADirectoryError || k == ExnKind.permissionError ||
  k == ExnKind.fileExistsError || k == ExnKind.osError

/-- `IndexError` is raised by `paths[0]` on an empty list in `handle_cp` and
`handle_mv`; it is not an `OSError`. -/
def indexError : PyExn := ⟨ExnKind.otherError, "list index out of range"⟩

/-- Resolve a user path against the working directory exactly as every
handler does: absolute paths pass through, otherwise `os.path.join`. -/
def resolveArg (current_dir path : String) : String :=
  if isabs path then path else pyPathJoin current_dir path

/-! The built-in command handlers of `src/commands/command_handler.py`.
Handlers whose bodies catch every exception are typed as plain `String`
functions; `handle_cd` re-raises by design and `handle_cp` / `handle_mv`
can hit an uncaught `IndexError`, so those three return `Except PyExn`. -/

/-- The argument-parsing step of `handle_ls`: a dash argument contributes its
`a` / `l` flag characters, any other argument becomes the listed path. -/
def lsParse (current_dir : String) (st : String × Bool × Bool) (arg : String) :
    String × Bool × Bool :=
  if pyStartswith arg "-" then
    (st.1, st.2.1 || pyContains arg "a", st.2.2 || pyContains arg "l")
  else (resolveArg current_dir arg, st.2.1, st.2.2)

/-- `handle_ls`: list a directory, honouring `-a` / `-l` flag characters. -/
def handle_ls (args : List String) (current_dir : String) (o : Os) : String :=
  let st := args.foldl (lsParse current_dir) (current_dir, false, false)
  let path := st.1
  let show_hidden := st.2.1
  let long_format := st.2.2
  if ¬ o.pathExists path then
    "ls: cannot access '" ++
      (match args.getLast? with
       | some lastArg => if ¬ pyStartswith lastArg "-" then lastArg else path
       | none => path) ++ "': No such file or directory"
  else
    match o.listdir path with
    | .error e =>
      if e.kind = ExnKind.permissionError then
        "ls: cannot open directory '" ++ path ++ "': Permission denied"
      else "ls: error: " ++ e.msg
    | .ok items0 =>
      let items := if ¬ show_hidden then items0.filter (fun i => ¬ pyStartswith i ".") else items0
      if items = [] then "(empty directory)"
      else if long_format then
        pyJoinWith "\n" ((sortAsc strLe items).map (fun item =>
          let item_path := pyPathJoin path item
          match o.statOf item_path with
          | .ok stat =>
            (if o.isdir item_path then "d" else "-") ++
              (if o.access item_path then "rwxrwxrwx" else "---------") ++ " " ++
              padLeft 8 (toString stat.size) ++ " " ++ stat.mtimeStr ++ " " ++
              (if o.isdir item_path then item ++ "/" else item)
          | .error _ => "??????????? ???????? " ++ item))
      else
        pyJoinWith "  " ((sortAsc strLe items).map (fun item =>
          if o.isdir (pyPathJoin path item) then item ++ "/" else item))

/-- `handle_pwd`: the working directory verbatim. -/
def handle_pwd (current_dir : String) : String := current_dir

/-- `handle_echo`: arguments joined by single spaces. -/
def handle_echo (args : List String) : String := pyJoinWith " " args

/-- `handle_clear`: fifty blank lines. -/
def handle_clear : String := String.mk (List.replicate 50 '\n')

/-- `handle_exit`: a farewell string. -/
def handle_exit : String := "Exiting terminal..."

/-- `handle_cd`: resolve the target; raises `FileNotFoundError` /
`NotADirectoryError` for missing or non-directory targets (the dispatcher's
outer guard catches these). -/
def handle_cd (args : List String) (current_dir : String) (o : Os) :
    Except PyExn String :=
  match args with
  | [] => .ok o.home
  | path :: _ =>
    if path = ".." then .ok (pyDirname current_dir)
    else if path = "." then .ok current_dir
    else if path = "~" then .ok o.home
    else if ¬ o.pathExists (pyNormpath (resolveArg current_dir path)) then
      .error ⟨ExnKind.fileNotFoundError, "cd: " ++ path ++ ": No such file or directory"⟩
    else if ¬ o.isdir (pyNormpath (resolveArg current_dir path)) then
      .error ⟨ExnKind.notADirectoryError, "cd: " ++ path ++ ": Not a directory"⟩
    else .ok (pyNormpath (resolveArg current_dir path))

/-- `handle_mkdir`: create each non-flag operand, reporting per path. -/
def handle_mkdir (args : List String) (current_dir : String) (o : Os) : String :=
  if args = [] then "mkdir: missing operand"
  else
    let create_parents := args.contains "-p"
    let paths := args.filter (fun a => ¬ pyStartswith a "-")
    if paths = [] then "mkdir: missing operand"
    else
      pyJoinWith "\n" (paths.map (fun path =>
        let new_dir := resolveArg current_dir path
        match o.makedirs new_dir create_parents with
        | .ok _ => "Directory created: " ++ new_dir
        | .error e =>
          if e.kind = ExnKind.fileExistsError then
            "mkdir: cannot create directory '" ++ path ++ "': File exists"
          else if e.kind = ExnKind.permissionError then
            "mkdir: cannot create directory '" ++ path ++ "': Permission denied"
          else "mkdir: error creating '" ++ path ++ "': " ++ e.msg))

/-- `handle_rmdir`: remove one directory, distinguishing not-found from the
other `OSError`s (which all render as "Directory not empty", as the source's
`except OSError` does). -/
def handle_rmdir (args : List String) (current_dir : String) (o : Os) : String :=
  match args with
  | [] => "rmdir: missing operand"
  | path :: _ =>
    let dir_path := resolveArg current_dir path
    match o.rmdirOp dir_path with
    | .ok _ => "Directory removed: " ++ dir_path
    | .error e =>
      if e.kind = ExnKind.fileNotFoundError then
        "rmdir: failed to remove '" ++ path ++ "': No such file or directory"
      else if isOSError e.kind then
        "rmdir: failed to remove '" ++ path ++ "': Directory not empty"
      else "rmdir: error: " ++ e.msg

/-- `handle_rm`: remove each non-flag operand; `-r`/`-rf` enables directory
removal, `-f`/`-rf` suppresses not-found errors. -/
def handle_rm (args : List String) (current_dir : String) (o : Os) : String :=
  if args = [] then "rm: missing operand"
  else
    let recursive := args.contains "-r" || args.contains "-rf"
    let force := args.contains "-f" || args.contains "-rf"
    let paths := args.filter (fun a => ¬ pyStartswith a "-")
    if paths = [] then "rm: missing operand"
    else
      pyJoinWith "\n" (paths.foldl (fun acc path =>
        let full_path := resolveArg current_dir path
        let res : Except PyExn String :=
          if o.isdir full_path then
            if recursive then (o.rmtree full_path).map (fun _ => "Removed directory: " ++ full_path)
            else .ok ("rm: cannot remove '" ++ path ++ "': Is a directory")
          else (o.removeFile full_path).map (fun _ => "Removed file: " ++ full_path)
        match res with
        | .ok s => acc ++ [s]
        | .error e =>
          if e.kind = ExnKind.fileNotFoundError then
            if ¬ force then acc ++ ["rm: cannot remove '" ++ path ++ "': No such file or directory"]
            else acc
          else acc ++ ["rm: error removing '" ++ path ++ "': " ++ e.msg]) [])

/-- `handle_cp`: copy a file or (with `-r`/`-R`) a directory; raises
`IndexError` when flag filtering leaves no operand (the source indexes
`paths[0]` unguarded). -/
def handle_cp (args : List String) (current_dir : String) (o : Os) :
    Except PyExn String :=
  if args.length < 2 then .ok "cp: missing file operand"
  else
    let recursive := args.contains "-r" || args.contains "-R"
    let paths := args.filter (fun a => ¬ pyStartswith a "-")
    match paths with
    | [] => .error indexError
    | [p0] => .ok ("cp: missing destination file operand after '" ++ p0 ++ "'")
    | source :: destination :: _ =>
      let source_path := resolveArg current_dir source
      let dest_path := resolveArg current_dir destination
      .ok (
        if o.isdir source_path then
          if recursive then
            if o.pathExists dest_path ∧ ¬ o.isdir dest_path then
              "cp: cannot overwrite non-directory '" ++ destination ++
                "' with directory '" ++ source ++ "'"
            else
              let act : Except PyExn Unit := do
                o.makedirs dest_path true
                let items ← o.listdir source_path
                items.forM (fun item =>
                  let s := pyPathJoin source_path item
                  let d := pyPathJoin dest_path item
                  if o.isdir s then o.copytree s d else o.copy2 s d)
              match act with
              | .ok _ => "Copied directory: " ++ source_path ++ " -> " ++ dest_path
              | .error e =>
                if e.kind = ExnKind.fileNotFoundError then
                  "cp: cannot stat '" ++ source ++ "': No such file or directory"
                else "cp: error: " ++ e.msg
          else "cp: -r not specified; omitting directory '" ++ source ++ "'"
        else
          let dest_path :=
            if o.isdir dest_path then pyPathJoin dest_path (pyBasename source_path)
            else dest_path
          match o.copy2 source_path dest_path with
          | .ok _ => "Copied file: " ++ source_path ++ " -> " ++ dest_path
          | .error e =>
            if e.kind = ExnKind.fileNotFoundError then
              "cp: cannot stat '" ++ source ++ "': No such file or directory"
            else "cp: error: " ++ e.msg)

/-- `handle_mv`: move a file or directory; a file moving to an existing
directory lands inside it; raises `IndexError` like `handle_cp` when flag
filtering leaves no operand. -/
def handle_mv (args : List String) (current_dir : String) (o : Os) :
    Except PyExn String :=
  if args.length < 2 then .ok "mv: missing file operand"
  else
    let paths := args.filter (fun a => ¬ pyStartswith a "-")
    match paths with
    | [] => .error indexError
    | [p0] => .ok ("mv: missing destination file operand after '" ++ p0 ++ "'")
    | source :: destination :: _ =>
      let source_path := resolveArg current_dir source
      let dest_path := resolveArg current_dir destination
      let dest_path :=
        if o.isdir dest_path ∧ ¬ o.isdir source_path then
          pyPathJoin dest_path (pyBasename source_path)
        else dest_path
      .ok (match o.move source_path dest_path with
        | .ok _ => "Moved: " ++ source_path ++ " -> " ++ dest_path
        | .error e =>
          if e.kind = ExnKind.fileNotFoundError then
            "mv: cannot stat '" ++ source ++ "': No such file or directory"
          else "mv: error: " ++ e.msg)

/-- `handle_cat`: concatenate the decoded contents of every operand,
reporting directories and missing files per operand. -/
def handle_cat (args : List String) (current_dir : String) (o : Os) : String :=
  if args = [] then "cat: missing operand"
  else
    pyJoinWith "\n" (args.map (fun path =>
      let file_path := resolveArg current_dir path
      if o.isdir file_path then "cat: " ++ path ++ ": Is a directory"
      else
        match o.readFile file_path with
        | .ok content => content
        | .error e =>
          if e.kind = ExnKind.fileNotFoundError then
            "cat: " ++ path ++ ": No such file or directory"
          else "cat: " ++ path ++ ": " ++ e.msg))

/-- `handle_touch`: ensure parent directories, create or update each file. -/
def handle_touch (args : List String) (current_dir : String) (o : Os) : String :=
  if args = [] then "touch: missing file operand"
  else
    pyJoinWith "\n" (args.map (fun path =>
      let file_path := resolveArg current_dir path
      let parent := let d := pyDirname file_path; if d = "" then "." else d
      let act : Except PyExn Unit := do
        o.makedirs parent true
        o.openAppend file_path
        o.utime file_path
      match act with
      | .ok _ => "Touched file: " ++ file_path
      | .error e => "touch: cannot touch '" ++ path ++ "': " ++ e.msg))

/-- Python text-file line iteration: split after each newline, keeping the
newline; a final segment without a newline is kept when nonempty. -/
def fileLinesF : Nat → List Char → List (List Char)
  | 0, _ => []
  | _ + 1, [] => []
  | fuel + 1, l =>
    match l.drop ((l.takeWhile (fun c => c ≠ '\n')).length) with
    | [] => [l.takeWhile (fun c => c ≠ '\n')]
    | _ :: t => (l.takeWhile (fun c => c ≠ '\n') ++ ['\n']) :: fileLinesF fuel t

/-- Line iteration with sufficient fuel. -/
def fileLinesL (l : List Char) : List (List Char) := fileLinesF l.length l

/-- The per-line loop of `handle_grep` over one file: on a search error the
remaining lines are abandoned and the error line is reported for the file. -/
def grepLines (o : Os) (pattern file_path : String) :
    List String → Nat → List String
  | [], _ => []
  | ln :: rest, i =>
    match o.reSearch pattern ln with
    | .error e => ["grep: " ++ file_path ++ ": " ++ e.msg]
    | .ok b =>
      (if b then [file_path ++ ":" ++ toString i ++ ":" ++ pyRstrip ln] else []) ++
        grepLines o pattern file_path rest (i + 1)

/-- `handle_grep`: first operand is the pattern, the rest are glob-expanded
path patterns; matches render as `path:line:content`. -/
def handle_grep (args : List String) (current_dir : String) (o : Os) : String :=
  if args.length < 2 then "grep: missing pattern or file operand"
  else
    match args with
    | [] => "grep: missing pattern or file operand"
    | pattern :: files =>
      pyJoinWith "\n" (files.foldl (fun acc file_pattern =>
        let path_pattern := resolveArg current_dir file_pattern
        let file_paths := o.globMatch path_pattern
        if file_paths = [] then
          acc ++ ["grep: " ++ file_pattern ++ ": No such file or directory"]
        else
          acc ++ file_paths.foldl (fun acc2 file_path =>
            if o.isdir file_path then acc2 ++ ["grep: " ++ file_path ++ ": Is a directory"]
            else
              match o.readFile file_path with
              | .error e => acc2 ++ ["grep: " ++ file_path ++ ": " ++ e.msg]
              | .ok content =>
                acc2 ++ grepLines o pattern file_path
                  ((fileLinesL content.data).map String.mk) 1) []) [])

/-- Find the closing bracket of an `fnmatch` character class. -/
def splitAtRBracket : List Char → Option (List Char × List Char)
  | [] => none
  | ']' :: t => some ([], t)
  | c :: t => (splitAtRBracket t).map (fun p => (c :: p.1, p.2))

/-- Membership in an `fnmatch` character-class body (with `a-b` ranges). -/
def clsMem : List Char → Char → Bool
  | a :: '-' :: b :: t, x => (a ≤ x ∧ x ≤ b) || clsMem t x
  | c :: t, x => x == c || clsMem t x
  | [], _ => false

/-- `fnmatch.fnmatch` on character lists (POSIX `normcase` is the identity):
`*`, `?` and `[...]` classes with `!` negation; an unterminated `[` is a
literal, as in `fnmatch.translate`. -/
def fnmatchL : Nat → List Char → List Char → Bool
  | 0, _, _ => false
  | _ + 1, [], s => s.isEmpty
  | fuel + 1, '*' :: p, s =>
    fnmatchL fuel p s ||
      (match s with
       | [] => false
       | _ :: t => fnmatchL fuel ('*' :: p) t)
  | fuel + 1, '?' :: p, s =>
    (match s with
     | [] => false
     | _ :: t => fnmatchL fuel p t)
  | fuel + 1, '[' :: p, s =>
    let neg := match p with | '!' :: _ => true | _ => false
    let p1 := match p with | '!' :: t => t | _ => p
    let lead := match p1 with | ']' :: _ => [']'] | _ => ([] : List Char)
    let p2 := match p1 with | ']' :: t => t | _ => p1
    match splitAtRBracket p2 with
    | none =>
      (match s with
       | [] => false
       | x :: t => x == '[' && fnmatchL fuel p t)
    | some (body, rest) =>
      (match s with
       | [] => false
       | x :: t =>
         (if neg then !(clsMem (lead ++ body) x) else clsMem (lead ++ body) x) &&
           fnmatchL fuel rest t)
  | fuel + 1, c :: p, s =>
    (match s with
     | [] => false
     | x :: t => x == c && fnmatchL fuel p t)

/-- `fnmatch.fnmatch(name, pattern)`. -/
def fnmatch (name pattern : String) : Bool :=
  fnmatchL (pattern.data.length + name.data.length + 1) pattern.data name.data

/-- The `-name` scan of `handle_find`: the first `-name` that still has a
following argument supplies the pattern. -/
def findNamePattern : List String → Option String
  | [] => none
  | "-name" :: next :: _ => some next
  | _ :: t => findNamePattern t

/-- `handle_find`: walk the tree below the first operand, emitting every
directory and file (optionally filtered by a `-name` glob on the basename)
as a path relative to the working directory. -/
def handle_find (args : List String) (current_dir : String) (o : Os) : String :=
  match args with
  | [] => "find: missing path operand"
  | path :: _ =>
    let name_pattern := findNamePattern args
    let search_path := resolveArg current_dir path
    if ¬ o.pathExists search_path then
      "find: '" ++ path ++ "': No such file or directory"
    else
      pyJoinWith "\n" ((o.walk search_path).foldl (fun acc entry =>
        acc ++
          entry.dirs.filterMap (fun d =>
            let rel := pyRelpath o.cwd (pyPathJoin entry.root d) current_dir
            if (match name_pattern with
                | none => true
                | some np => fnmatch d np) then some rel else none) ++
          entry.files.filterMap (fun f =>
            let rel := pyRelpath o.cwd (pyPathJoin entry.root f) current_dir
            if (match name_pattern with
                | none => true
                | some np => fnmatch f np) then some rel else none)) [])

/-- The per-process accumulation shared by `handle_ps`, `handle_top` and
`handle_process_list`: psutil's per-process exceptions are skipped, any
other exception aborts into the handler's outer catch. -/
def collectProcs (procs : List (Except PyExn ProcInfo)) :
    Except PyExn (List ProcInfo) :=
  procs.foldlM (fun acc pr =>
    match pr with
    | .ok pi => .ok (acc ++ [pi])
    | .error e => if psutilSkip e.kind then .ok acc else .error e) []

/-- `handle_ps`: tabular process listing capped at 20 rows. -/
def handle_ps (o : Os) : String :=
  match (do
    let procs ← o.process_iter
    collectProcs procs) with
  | .error e => "ps: error: " ++ e.msg
  | .ok infos =>
    let rows := infos.map (fun pi =>
      toString pi.pid ++ "\t" ++ o.fmt1 pi.cpu ++ "\t" ++ o.fmt1 pi.mem ++ "\t" ++
        pyOrStr pi.username "N/A" ++ "\t" ++ pyFmtOpt pi.name)
    if rows = [] then "No processes found"
    else "PID\tCPU%\tMEM%\tUSER\tCOMMAND" ++ "\n" ++ pyJoinWith "\n" (rows.take 20)

/-- `handle_top`: CPU and memory header plus the ten highest-CPU processes
(stable descending sort, as `list.sort(reverse=True)`). -/
def handle_top (o : Os) : String :=
  match (do
    let cp ← o.cpu_percent
    let mem ← o.virtual_memory
    let procs ← o.process_iter
    let infos ← collectProcs procs
    .ok (cp, mem, infos)) with
  | .error e => "top: error: " ++ e.msg
  | .ok (cp, mem, infos) =>
    let sortedP := sortAsc (fun a b : ProcInfo => decide (b.cpu ≤ a.cpu)) infos
    pyJoinWith "\n"
      (["CPU Usage: " ++ o.fmt1 cp ++ "%",
        "Memory: " ++ o.fmt1 mem.percent ++ "% used (" ++
          toString (mem.used / (1024 * 1024)) ++ " MB / " ++
          toString (mem.total / (1024 * 1024)) ++ " MB)",
        "",
        "PID\tCPU%\tMEM%\tUSER\tCOMMAND"] ++
        (sortedP.take 10).map (fun pi =>
          toString pi.pid ++ "\t" ++ o.fmt1 pi.cpu ++ "\t" ++ o.fmt1 pi.mem ++ "\t" ++
            pyOrStr pi.username "N/A" ++ "\t" ++ pyOrStr pi.name "unknown"))

/-- Python `x or 'N/A'` over an optional count (`None` and `0` are falsy). -/
def pyOrNat (v : Option Nat) : String :=
  match v with
  | none => "N/A"
  | some 0 => "N/A"
  | some n => toString n

/-- The dictionary of available commands, in insertion order. -/
def AVAILABLE_COMMANDS : List (String × String) :=
  [("ls", "List directory contents"),
   ("dir", "List directory contents (Windows)"),
   ("cd", "Change directory"),
   ("pwd", "Print working directory"),
   ("mkdir", "Make directory"),
   ("rmdir", "Remove directory"),
   ("rm", "Remove file or directory"),
   ("cp", "Copy file or directory"),
   ("mv", "Move file or directory"),
   ("cat", "Display file contents"),
   ("echo", "Display a line of text"),
   ("touch", "Create an empty file"),
   ("grep", "Search for patterns in files"),
   ("find", "Search for files"),
   ("ps", "Report process status"),
   ("top", "Display system processes"),
   ("clear", "Clear the terminal screen"),
   ("history", "Show command history"),
   ("help", "Display help information"),
   ("exit", "Exit the terminal"),
   ("cpu", "Display CPU information"),
   ("memory", "Display memory information"),
   ("processes", "List running processes")]

/-- `handle_help`: all commands sorted by name, or one command's description. -/
def handle_help (args : List String) : String :=
  match args with
  | [] =>
    pyJoinWith "\n" ("Available commands:" ::
      (sortAsc (fun a b => strLe a.1 b.1) AVAILABLE_COMMANDS).map (fun p =>
        "  " ++ ljust 10 p.1 ++ " - " ++ p.2))
  | a :: _ =>
    let cmd := pyLower a
    match AVAILABLE_COMMANDS.lookup cmd with
    | some desc => cmd ++ " - " ++ desc
    | none => "help: no help topics match '" ++ cmd ++ "'"

/-- `handle_cpu_info`: core counts, frequency, per-core and average usage. -/
def handle_cpu_info (o : Os) : String :=
  match (do
    let phys ← o.cpu_count_physical
    let total ← o.cpu_count_logical
    let percents ← o.cpu_percent_percpu
    let freq ← o.cpu_freq
    .ok (phys, total, percents, freq)) with
  | .error e => "cpu: error: " ++ e.msg
  | .ok (phys, total, percents, freq) =>
    pyJoinWith "\n"
      (["Physical cores: " ++ pyOrNat phys, "Total cores: " ++ pyOrNat total] ++
        (match freq with
         | some f => ["Current frequency: " ++ o.fmt1 f.current ++ " MHz"]
         | none => []) ++
        ["CPU Usage Per Core:"] ++
        (if percents ≠ [] then
          percents.enum.map (fun p =>
            "  Core " ++ toString p.1 ++ ": " ++ o.fmt1 p.2 ++ "%") ++
            ["Total CPU Usage: " ++
              o.fmt1 ((percents.foldl (· + ·) 0) / (percents.length : Rat)) ++ "%"]
        else ["  Unable to get CPU usage information"]))

/-- `handle_memory_info`: memory and (when present) swap summaries. -/
def handle_memory_info (o : Os) : String :=
  match (do
    let mem ← o.virtual_memory
    let swap ← o.swap_memory
    .ok (mem, swap)) with
  | .error e => "memory: error: " ++ e.msg
  | .ok (mem, swap) =>
    pyJoinWith "\n"
      (["Memory Information:",
        "  Total: " ++ toString (mem.total / (1024 * 1024)) ++ " MB",
        "  Available: " ++ toString (mem.available / (1024 * 1024)) ++ " MB",
        "  Used: " ++ toString (mem.used / (1024 * 1024)) ++ " MB (" ++
          o.fmt1 mem.percent ++ "%)",
        "  Free: " ++ toString (mem.free / (1024 * 1024)) ++ " MB"] ++
        (if 0 < swap.total then
          ["",
           "Swap Information:",
           "  Total: " ++ toString (swap.total / (1024 * 1024)) ++ " MB",
           "  Used: " ++ toString (swap.used / (1024 * 1024)) ++ " MB (" ++
             o.fmt1 swap.percent ++ "%)",
           "  Free: " ++ toString (swap.free / (1024 * 1024)) ++ " MB"]
        else []))

/-- `handle_process_list`: pid/status/user/name table capped at 20 rows. -/
def handle_process_list (o : Os) : String :=
  match (do
    let procs ← o.process_iter
    collectProcs procs) with
  | .error e => "processes: error: " ++ e.msg
  | .ok infos =>
    let rows := infos.map (fun pi =>
      toString pi.pid ++ "\t" ++ pyFmtOpt pi.status ++ "\t" ++
        pyOrStr pi.username "N/A" ++ "\t" ++ pyOrStr pi.name "unknown")
    if rows = [] then "No processes found"
    else "PID\tSTATUS\tUSER\tCOMMAND" ++ "\n" ++ pyJoinWith "\n" (rows.take 20)

/-! The dispatcher `execute_command`. -/

/-- The command names of the dispatch table. -/
def availableNames : List String := AVAILABLE_COMMANDS.map (fun p => p.1)

/-- First token of the command line, lowercased (`parts[0].lower() if parts
else ""`). -/
def cmdOf (command : String) : String :=
  match pySplit command with
  | [] => ""
  | x :: _ => pyLower x

/-- The remaining tokens of the command line. -/
def argsOf (command : String) : List String :=
  match pySplit command with
  | [] => []
  | _ :: t => t

/-- The fixed denylist of the shell-fallback path. -/
def dangerous_commands : List String := ["rm -rf /", "rm -rf /*", "dd", "mkfs", "format"]

/-- The denylist test: plain substring search on the lowercased raw line. -/
def dangerousHit (command : String) : Bool :=
  dangerous_commands.any (fun dc => pyContains (pyLower command) dc)

/-- Whether the first token selects a branch of the dispatcher's `if/elif`
chain (note `history` is absent from the chain, and `dir` only dispatches on
Windows). -/
def isDispatched (cmd : String) (isWindows : Bool) : Bool :=
  cmd == "ls" || (cmd == "dir" && isWindows) || cmd == "cd" || cmd == "pwd" ||
  cmd == "mkdir" || cmd == "rmdir" || cmd == "rm" || cmd == "cp" || cmd == "mv" ||
  cmd == "cat" || cmd == "echo" || cmd == "touch" || cmd == "grep" ||
  cmd == "find" || cmd == "ps" || cmd == "top" || cmd == "clear" ||
  cmd == "test" || cmd == "help" || cmd == "exit" || cmd == "cpu" ||
  cmd == "memory" || cmd == "processes"

/-- The dispatcher's result record. -/
structure CommandResult where
  output : String
  new_dir : Option String
deriving DecidableEq, Repr

/-- The subprocess collaborator: a command line and a working directory give
either `(stdout, stderr)` or an exception (`timeoutExpired` for the
10-second timeout). -/
def Shell := String → String → Except PyExn (String × String)

/-- The body of `execute_command`'s outer `try`: the `if/elif` dispatch
chain, the did-you-mean branch, the denylist and the shell fallback (whose
own inner `try` is the final `match`). -/
def execute_inner (command current_dir : String) (o : Os) (sh : Shell) :
    Except PyExn CommandResult :=
  let cmd := cmdOf command
  let args := argsOf command
  if cmd = "ls" ∨ (cmd = "dir" ∧ o.isWindows) then
    .ok ⟨handle_ls args current_dir o, none⟩
  else if cmd = "cd" then
    (handle_cd args current_dir o).map (fun nd =>
      ⟨"Changed directory to: " ++ nd, some nd⟩)
  else if cmd = "pwd" then .ok ⟨handle_pwd current_dir, none⟩
  else if cmd = "mkdir" then .ok ⟨handle_mkdir args current_dir o, none⟩
  else if cmd = "rmdir" then .ok ⟨handle_rmdir args current_dir o, none⟩
  else if cmd = "rm" then .ok ⟨handle_rm args current_dir o, none⟩
  else if cmd = "cp" then (handle_cp args current_dir o).map (fun s => ⟨s, none⟩)
  else if cmd = "mv" then (handle_mv args current_dir o).map (fun s => ⟨s, none⟩)
  else if cmd = "cat" then .ok ⟨handle_cat args current_dir o, none⟩
  else if cmd = "echo" then .ok ⟨handle_echo args, none⟩
  else if cmd = "touch" then .ok ⟨handle_touch args current_dir o, none⟩
  else if cmd = "grep" then .ok ⟨handle_grep args current_dir o, none⟩
  else if cmd = "find" then .ok ⟨handle_find args current_dir o, none⟩
  else if cmd = "ps" then .ok ⟨handle_ps o, none⟩
  else if cmd = "top" then .ok ⟨handle_top o, none⟩
  else if cmd = "clear" then .ok ⟨handle_clear, none⟩
  else if cmd = "test" then
    .ok ⟨"Test command working! The output system is functional.", none⟩
  else if cmd = "help" then .ok ⟨handle_help args, none⟩
  else if cmd = "exit" then .ok ⟨handle_exit, none⟩
  else if cmd = "cpu" then .ok ⟨handle_cpu_info o, none⟩
  else if cmd = "memory" then .ok ⟨handle_memory_info o, none⟩
  else if cmd = "processes" then .ok ⟨handle_process_list o, none⟩
  else
    let suggestions := get_close_matches cmd availableNames 3 3 5
    if suggestions ≠ [] then
      .ok ⟨"Command '" ++ cmd ++ "' not found. Did you mean: " ++
        pyJoinWith ", " suggestions ++ "?", none⟩
    else if dangerousHit command then
      .ok ⟨"Error: Potentially dangerous command '" ++ command ++
        "' blocked for safety reasons.", none⟩
    else
      .ok ⟨(match sh command current_dir with
        | .ok (stdout, stderr) =>
          if stderr ≠ "" then pyStrip stderr
          else if pyStrip stdout ≠ "" then pyStrip stdout
          else "(Command executed successfully with no output)"
        | .error e =>
          if e.kind = ExnKind.timeoutExpired then "Command timed out after 10 seconds"
          else "Command '" ++ cmd ++ "' not found or could not be executed: " ++
            e.msg), none⟩

/-- `execute_command`: empty input is a no-op; otherwise dispatch inside the
outer guard (`except Exception` becomes the "Error executing command"
result), then apply the canned-output fixups for `ls`/`pwd`/`help`/`echo`. -/
def execute_command (command current_dir : String) (o : Os) (sh : Shell) :
    Except PyExn CommandResult :=
  if command = "" ∨ pyStrip command = "" then .ok ⟨"", none⟩
  else
    let cmd := cmdOf command
    let caught : CommandResult :=
      match execute_inner command current_dir o sh with
      | .ok r => r
      | .error e => ⟨"Error executing command: " ++ e.msg, none⟩
    .ok (if caught.output = "" ∧
            (cmd = "ls" ∨ cmd = "pwd" ∨ cmd = "help" ∨ cmd = "echo") then
      ⟨(if cmd = "ls" then "(empty directory)"
        else if cmd = "pwd" then current_dir
        else if cmd = "help" then "Type 'help' for available commands"
        else ""), caught.new_dir⟩
    else caught)

/-! Embedding of `src/utils/nlp_interpreter.py`.

The pattern table drives two mechanisms: `re.match` against each pattern
(embedded as an abstract syntax tree `Rx` with Python's backtracking
semantics: alternation tries left first, `?` and `+` are greedy), and the
fallback branch of `interpret`, which manipulates the raw pattern *strings*.
Each table entry therefore stores the verbatim pattern string together with
its `Rx` translation. -/

/-- Regex subset used by the pattern table: literal characters, `\S+` and
`.+` (via `satPlus`), concatenation, alternation, greedy option and named
groups. -/
inductive Rx where
  | eps : Rx
  | chr : Char → Rx
  | satPlus : Bool → Rx
  | cat : Rx → Rx → Rx
  | alt : Rx → Rx → Rx
  | opt : Rx → Rx
  | grp : String → Rx → Rx

/-- Capture state: every named group of the pattern, in definition order,
with `none` when the group did not participate (the `groupdict()` view). -/
def Caps := List (String × Option String)

/-- Record a named group's captured text. -/
def setCap (cp : Caps) (nm v : String) : Caps :=
  match cp with
  | [] => [(nm, some v)]
  | (n, o) :: t => if n = nm then (n, some v) :: t else (n, o) :: setCap t nm v

/-- Greedy backtracking for `\S+` / `.+`: try the longest permissible
consumption first. -/
def tryLens (s : List Char) (cp : Caps) (k : List Char → Caps → Option Caps) :
    Nat → Option Caps
  | 0 => none
  | m + 1 =>
    match k (s.drop (m + 1)) cp with
    | some r => some r
    | none => tryLens s cp k m

/-- Backtracking matcher in continuation style; `re.match` semantics: the
match is anchored at the start and any remaining suffix is accepted by the
top continuation. -/
def matchRx : Rx → List Char → Caps → (List Char → Caps → Option Caps) → Option Caps
  | .eps, s, cp, k => k s cp
  | .chr c, s, cp, k =>
    (match s with
     | [] => none
     | x :: t => if x = c then k t cp else none)
  | .satPlus nonspace, s, cp, k =>
    let pred := fun ch => if nonspace then !pyIsWs ch else ch ≠ '\n'
    tryLens s cp k (s.takeWhile pred).length
  | .cat a b, s, cp, k => matchRx a s cp (fun s' cp' => matchRx b s' cp' k)
  | .alt a b, s, cp, k =>
    (match matchRx a s cp k with
     | some r => some r
     | none => matchRx b s cp k)
  | .opt r, s, cp, k =>
    (match matchRx r s cp k with
     | some res => some res
     | none => k s cp)
  | .grp nm r, s, cp, k =>
    matchRx r s cp (fun s' cp' =>
      k s' (setCap cp' nm (String.mk (s.take (s.length - s'.length)))))

/-- The named groups defined in a pattern, in definition order. -/
def rxNames : Rx → List String
  | .grp nm r => nm :: rxNames r
  | .cat a b => rxNames a ++ rxNames b
  | .alt a b => rxNames a ++ rxNames b
  | .opt r => rxNames r
  | _ => []

/-- `re.match(pattern, text)` with `groupdict()` on success. -/
def reMatch (rx : Rx) (text : String) : Option Caps :=
  matchRx rx text.data ((rxNames rx).map (fun n => (n, none))) (fun _ cp => some cp)

/-- A literal string as a regex. -/
def rlit (s : String) : Rx := s.data.foldr (fun c acc => Rx.cat (Rx.chr c) acc) Rx.eps

/-- Concatenation of a list of regexes. -/
def rcat (l : List Rx) : Rx := l.foldr Rx.cat Rx.eps

/-- Left-to-right alternation of two / three branches. -/
def ralt2 (a b : Rx) : Rx := Rx.alt a b

/-- Three-way alternation, tried left to right. -/
def ralt3 (a b c : Rx) : Rx := Rx.alt (Rx.alt a b) c

/-- Four-way alternation, tried left to right. -/
def ralt4 (a b c d : Rx) : Rx := Rx.alt (Rx.alt (Rx.alt a b) c) d

/-- A named group capturing `\S+`. -/
def gS (nm : String) : Rx := Rx.grp nm (Rx.satPlus true)

/-- A named group capturing `.+`. -/
def gAny (nm : String) : Rx := Rx.grp nm (Rx.satPlus false)

/-- The effect of a pattern rule: a template string or a generator from the
capture dictionary to a list of command lines. -/
inductive Effect where
  | template : String → Effect
  | gen : (Caps → List String) → Effect

/-- One rule of the pattern table: alternative `(string, Rx)` patterns and
one effect. -/
structure PatternRule where
  pats : List (String × Rx)
  effect : Effect

/-- `matches['key']` rendered by an f-string: a `None` capture prints as
`"None"` (keys are always present in `groupdict()`). -/
def capStr (cp : Caps) (key : String) : String :=
  match cp.lookup key with
  | some v => pyFmtOpt v
  | none => "None"

/-- `matches.get('key', default)`: the default applies only when the key is
absent, which never happens for groups defined in the pattern — a `None`
value still renders as `"None"`. -/
def capGet (cp : Caps) (key dflt : String) : String :=
  match cp.lookup key with
  | some v => pyFmtOpt v
  | none => dflt

/-- The ordered pattern table `COMMAND_PATTERNS`. -/
def COMMAND_PATTERNS : List PatternRule :=
  [ -- touch
    ⟨[("create (?:a )?(?:new )?(?:empty )?file (?:called |named )?(?P<filename>\\S+)",
       rcat [rlit "create ", Rx.opt (rlit "a "), Rx.opt (rlit "new "),
             Rx.opt (rlit "empty "), rlit "file ",
             Rx.opt (ralt2 (rlit "called ") (rlit "named ")), gS "filename"]),
      ("make (?:a )?(?:new )?(?:empty )?file (?:called |named )?(?P<filename>\\S+)",
       rcat [rlit "make ", Rx.opt (rlit "a "), Rx.opt (rlit "new "),
             Rx.opt (rlit "empty "), rlit "file ",
             Rx.opt (ralt2 (rlit "called ") (rlit "named ")), gS "filename"])],
     Effect.template "touch {filename}"⟩,
    -- mkdir
    ⟨[("create (?:a )?(?:new )?directory (?:called |named )?(?P<dirname>\\S+)",
       rcat [rlit "create ", Rx.opt (rlit "a "), Rx.opt (rlit "new "),
             rlit "directory ", Rx.opt (ralt2 (rlit "called ") (rlit "named ")),
             gS "dirname"]),
      ("make (?:a )?(?:new )?directory (?:called |named )?(?P<dirname>\\S+)",
       rcat [rlit "make ", Rx.opt (rlit "a "), Rx.opt (rlit "new "),
             rlit "directory ", Rx.opt (ralt2 (rlit "called ") (rlit "named ")),
             gS "dirname"]),
      ("create (?:a )?(?:new )?folder (?:called |named )?(?P<dirname>\\S+)",
       rcat [rlit "create ", Rx.opt (rlit "a "), Rx.opt (rlit "new "),
             rlit "folder ", Rx.opt (ralt2 (rlit "called ") (rlit "named ")),
             gS "dirname"]),
      ("make (?:a )?(?:new )?folder (?:called |named )?(?P<dirname>\\S+)",
       rcat [rlit "make ", Rx.opt (rlit "a "), Rx.opt (rlit "new "),
             rlit "folder ", Rx.opt (ralt2 (rlit "called ") (rlit "named ")),
             gS "dirname"])],
     Effect.template "mkdir {dirname}"⟩,
    -- ls
    ⟨[("(?:show|display|list) (?:the )?(?:files|contents) (?:in|of)(?: the)? (?:directory|folder)?(?: (?P<dirname>\\S+))?",
       rcat [ralt3 (rlit "show") (rlit "display") (rlit "list"), Rx.chr ' ',
             Rx.opt (rlit "the "), ralt2 (rlit "files") (rlit "contents"),
             Rx.chr ' ', ralt2 (rlit "in") (rlit "of"), Rx.opt (rlit " the"),
             Rx.chr ' ', Rx.opt (ralt2 (rlit "directory") (rlit "folder")),
             Rx.opt (Rx.cat (Rx.chr ' ') (gS "dirname"))]),
      ("(?:show|display|list) (?:the )?(?:directory|folder)(?: (?P<dirname>\\S+))?",
       rcat [ralt3 (rlit "show") (rlit "display") (rlit "list"), Rx.chr ' ',
             Rx.opt (rlit "the "), ralt2 (rlit "directory") (rlit "folder"),
             Rx.opt (Rx.cat (Rx.chr ' ') (gS "dirname"))]),
      ("what(?:\\'s| is) in(?: the)? (?:directory|folder)(?: (?P<dirname>\\S+))?",
       rcat [rlit "what", ralt2 (rlit "'s") (rlit " is"), rlit " in",
             Rx.opt (rlit " the"), Rx.chr ' ',
             ralt2 (rlit "directory") (rlit "folder"),
             Rx.opt (Rx.cat (Rx.chr ' ') (gS "dirname"))])],
     Effect.template "ls {dirname}"⟩,
    -- cat
    ⟨[("(?:show|display|print) (?:the )?contents of(?: the)? file (?P<filename>\\S+)",
       rcat [ralt3 (rlit "show") (rlit "display") (rlit "print"), Rx.chr ' ',
             Rx.opt (rlit "the "), rlit "contents of", Rx.opt (rlit " the"),
             rlit " file ", gS "filename"]),
      ("(?:show|display|print) (?:the )?file (?P<filename>\\S+)",
       rcat [ralt3 (rlit "show") (rlit "display") (rlit "print"), Rx.chr ' ',
             Rx.opt (rlit "the "), rlit "file ", gS "filename"]),
      ("read (?:the )?file (?P<filename>\\S+)",
       rcat [rlit "read ", Rx.opt (rlit "the "), rlit "file ", gS "filename"]),
      ("what(?:\\'s| is) in(?: the)? file (?P<filename>\\S+)",
       rcat [rlit "what", ralt2 (rlit "'s") (rlit " is"), rlit " in",
             Rx.opt (rlit " the"), rlit " file ", gS "filename"])],
     Effect.template "cat {filename}"⟩,
    -- rm
    ⟨[("(?:remove|delete) (?:the )?file (?P<filename>\\S+)",
       rcat [ralt2 (rlit "remove") (rlit "delete"), Rx.chr ' ',
             Rx.opt (rlit "the "), rlit "file ", gS "filename"]),
      ("(?:remove|delete) (?P<filename>\\S+)",
       rcat [ralt2 (rlit "remove") (rlit "delete"), Rx.chr ' ', gS "filename"])],
     Effect.template "rm {filename}"⟩,
    -- rm -r
    ⟨[("(?:remove|delete) (?:the )?(?:directory|folder) (?P<dirname>\\S+)",
       rcat [ralt2 (rlit "remove") (rlit "delete"), Rx.chr ' ',
             Rx.opt (rlit "the "), ralt2 (rlit "directory") (rlit "folder"),
             Rx.chr ' ', gS "dirname"]),
      ("(?:remove|delete) (?:the )?(?:directory|folder) (?P<dirname>\\S+) and (?:its|all its) contents",
       rcat [ralt2 (rlit "remove") (rlit "delete"), Rx.chr ' ',
             Rx.opt (rlit "the "), ralt2 (rlit "directory") (rlit "folder"),
             Rx.chr ' ', gS "dirname", rlit " and ",
             ralt2 (rlit "its") (rlit "all its"), rlit " contents"]),
      ("(?:remove|delete) (?:the )?(?:directory|folder) (?P<dirname>\\S+) recursively",
       rcat [ralt2 (rlit "remove") (rlit "delete"), Rx.chr ' ',
             Rx.opt (rlit "the "), ralt2 (rlit "directory") (rlit "folder"),
             Rx.chr ' ', gS "dirname", rlit " recursively"])],
     Effect.template "rm -r {dirname}"⟩,
    -- cp
    ⟨[("copy (?:the )?file (?P<source>\\S+) to (?P<destination>\\S+)",
       rcat [rlit "copy ", Rx.opt (rlit "the "), rlit "file ", gS "source",
             rlit " to ", gS "destination"]),
      ("copy (?P<source>\\S+) to (?P<destination>\\S+)",
       rcat [rlit "copy ", gS "source", rlit " to ", gS "destination"])],
     Effect.template "cp {source} {destination}"⟩,
    -- cp -r
    ⟨[("copy (?:the )?(?:directory|folder) (?P<source>\\S+) to (?P<destination>\\S+)",
       rcat [rlit "copy ", Rx.opt (rlit "the "),
             ralt2 (rlit "directory") (rlit "folder"), Rx.chr ' ', gS "source",
             rlit " to ", gS "destination"]),
      ("copy (?:the )?(?:directory|folder) (?P<source>\\S+) and (?:its|all its) contents to (?P<destination>\\S+)",
       rcat [rlit "copy ", Rx.opt (rlit "the "),
             ralt2 (rlit "directory") (rlit "folder"), Rx.chr ' ', gS "source",
             rlit " and ", ralt2 (rlit "its") (rlit "all its"),
             rlit " contents to ", gS "destination"])],
     Effect.template "cp -r {source} {destination}"⟩,
    -- mv
    ⟨[("move (?:the )?file (?P<source>\\S+) to (?P<destination>\\S+)",
       rcat [rlit "move ", Rx.opt (rlit "the "), rlit "file ", gS "source",
             rlit " to ", gS "destination"]),
      ("move (?P<source>\\S+) to (?P<destination>\\S+)",
       rcat [rlit "move ", gS "source", rlit " to ", gS "destination"])],
     Effect.template "mv {source} {destination}"⟩,
    -- rename
    ⟨[("rename (?:the )?file (?P<source>\\S+) to (?P<destination>\\S+)",
       rcat [rlit "rename ", Rx.opt (rlit "the "), rlit "file ", gS "source",
             rlit " to ", gS "destination"]),
      ("rename (?P<source>\\S+) to (?P<destination>\\S+)",
       rcat [rlit "rename ", gS "source", rlit " to ", gS "destination"])],
     Effect.template "mv {source} {destination}"⟩,
    -- cd
    ⟨[("(?:change|switch) (?:to )?(?:the )?(?:directory|folder) (?P<dirname>\\S+)",
       rcat [ralt2 (rlit "change") (rlit "switch"), Rx.chr ' ',
             Rx.opt (rlit "to "), Rx.opt (rlit "the "),
             ralt2 (rlit "directory") (rlit "folder"), Rx.chr ' ', gS "dirname"]),
      ("(?:change|switch) (?:to )?(?:the )?(?:directory|folder) (?P<dirname>.+)",
       rcat [ralt2 (rlit "change") (rlit "switch"), Rx.chr ' ',
             Rx.opt (rlit "to "), Rx.opt (rlit "the "),
             ralt2 (rlit "directory") (rlit "folder"), Rx.chr ' ', gAny "dirname"]),
      ("go to (?:the )?(?:directory|folder) (?P<dirname>\\S+)",
       rcat [rlit "go to ", Rx.opt (rlit "the "),
             ralt2 (rlit "directory") (rlit "folder"), Rx.chr ' ', gS "dirname"]),
      ("go to (?:the )?(?:directory|folder) (?P<dirname>.+)",
       rcat [rlit "go to ", Rx.opt (rlit "the "),
             ralt2 (rlit "directory") (rlit "folder"), Rx.chr ' ', gAny "dirname"]),
      ("cd (?:to )?(?P<dirname>\\S+)",
       rcat [rlit "cd ", Rx.opt (rlit "to "), gS "dirname"]),
      ("cd (?:to )?(?P<dirname>.+)",
       rcat [rlit "cd ", Rx.opt (rlit "to "), gAny "dirname"])],
     Effect.template "cd {dirname}"⟩,
    -- pwd
    ⟨[("(?:show|display|print) (?:the )?current (?:directory|folder|path)",
       rcat [ralt3 (rlit "show") (rlit "display") (rlit "print"), Rx.chr ' ',
             Rx.opt (rlit "the "), rlit "current ",
             ralt3 (rlit "directory") (rlit "folder") (rlit "path")]),
      ("where am i", rlit "where am i"),
      ("what (?:directory|folder|path) am i in",
       rcat [rlit "what ", ralt3 (rlit "directory") (rlit "folder") (rlit "path"),
             rlit " am i in"]),
      ("what(?:\\'s| is) (?:the )?current (?:directory|folder|path)",
       rcat [rlit "what", ralt2 (rlit "'s") (rlit " is"), Rx.chr ' ',
             Rx.opt (rlit "the "), rlit "current ",
             ralt3 (rlit "directory") (rlit "folder") (rlit "path")])],
     Effect.template "pwd"⟩,
    -- cd ..
    ⟨[("go (?:back|up)(?: one level)?",
       rcat [rlit "go ", ralt2 (rlit "back") (rlit "up"),
             Rx.opt (rlit " one level")]),
      ("go to (?:the )?parent (?:directory|folder)",
       rcat [rlit "go to ", Rx.opt (rlit "the "), rlit "parent ",
             ralt2 (rlit "directory") (rlit "folder")])],
     Effect.template "cd .."⟩,
    -- cd ~
    ⟨[("go (?:to )?home", rcat [rlit "go ", Rx.opt (rlit "to "), rlit "home"]),
      ("go to (?:the )?home (?:directory|folder)",
       rcat [rlit "go to ", Rx.opt (rlit "the "), rlit "home ",
             ralt2 (rlit "directory") (rlit "folder")])],
     Effect.template "cd ~"⟩,
    -- find -name
    ⟨[("find (?:all )?files (?:named|called) (?P<filename>\\S+)",
       rcat [rlit "find ", Rx.opt (rlit "all "), rlit "files ",
             ralt2 (rlit "named") (rlit "called"), Rx.chr ' ', gS "filename"]),
      ("search for (?:all )?files (?:named|called) (?P<filename>\\S+)",
       rcat [rlit "search for ", Rx.opt (rlit "all "), rlit "files ",
             ralt2 (rlit "named") (rlit "called"), Rx.chr ' ', gS "filename"]),
      ("locate (?:all )?files (?:named|called) (?P<filename>\\S+)",
       rcat [rlit "locate ", Rx.opt (rlit "all "), rlit "files ",
             ralt2 (rlit "named") (rlit "called"), Rx.chr ' ', gS "filename"])],
     Effect.template "find . -name {filename}"⟩,
    -- grep
    ⟨[("find (?:all )?files containing (?:the )?(?:text|string|pattern) (?P<pattern>\\S+)",
       rcat [rlit "find ", Rx.opt (rlit "all "), rlit "files containing ",
             Rx.opt (rlit "the "),
             ralt3 (rlit "text") (rlit "string") (rlit "pattern"), Rx.chr ' ',
             gS "pattern"]),
      ("search for (?:all )?files containing (?:the )?(?:text|string|pattern) (?P<pattern>\\S+)",
       rcat [rlit "search for ", Rx.opt (rlit "all "), rlit "files containing ",
             Rx.opt (rlit "the "),
             ralt3 (rlit "text") (rlit "string") (rlit "pattern"), Rx.chr ' ',
             gS "pattern"]),
      ("grep (?:for )?(?P<pattern>\\S+)",
       rcat [rlit "grep ", Rx.opt (rlit "for "), gS "pattern"])],
     Effect.template "grep -r {pattern} ."⟩,
    -- cpu
    ⟨[("(?:show|display) (?:the )?(?:system )?(?:cpu|processor) (?:information|info|usage|stats)",
       rcat [ralt2 (rlit "show") (rlit "display"), Rx.chr ' ',
             Rx.opt (rlit "the "), Rx.opt (rlit "system "),
             ralt2 (rlit "cpu") (rlit "processor"), Rx.chr ' ',
             ralt4 (rlit "information") (rlit "info") (rlit "usage") (rlit "stats")]),
      ("how (?:is|\\'s) (?:the )?(?:cpu|processor) (?:doing)?",
       rcat [rlit "how ", ralt2 (rlit "is") (rlit "'s"), Rx.chr ' ',
             Rx.opt (rlit "the "), ralt2 (rlit "cpu") (rlit "processor"),
             Rx.chr ' ', Rx.opt (rlit "doing")]),
      ("what(?:\\'s| is) (?:the )?(?:cpu|processor) (?:usage|load)",
       rcat [rlit "what", ralt2 (rlit "'s") (rlit " is"), Rx.chr ' ',
             Rx.opt (rlit "the "), ralt2 (rlit "cpu") (rlit "processor"),
             Rx.chr ' ', ralt2 (rlit "usage") (rlit "load")])],
     Effect.template "cpu"⟩,
    -- memory
    ⟨[("(?:show|display) (?:the )?(?:system )?memory (?:information|info|usage|stats)",
       rcat [ralt2 (rlit "show") (rlit "display"), Rx.chr ' ',
             Rx.opt (rlit "the "), Rx.opt (rlit "system "), rlit "memory ",
             ralt4 (rlit "information") (rlit "info") (rlit "usage") (rlit "stats")]),
      ("how (?:is|\\'s) (?:the )?memory (?:doing)?",
       rcat [rlit "how ", ralt2 (rlit "is") (rlit "'s"), Rx.chr ' ',
             Rx.opt (rlit "the "), rlit "memory ", Rx.opt (rlit "doing")]),
      ("what(?:\\'s| is) (?:the )?memory (?:usage|load)",
       rcat [rlit "what", ralt2 (rlit "'s") (rlit " is"), Rx.chr ' ',
             Rx.opt (rlit "the "), rlit "memory ",
             ralt2 (rlit "usage") (rlit "load")])],
     Effect.template "memory"⟩,
    -- processes
    ⟨[("(?:show|display|list) (?:the )?(?:running )?processes",
       rcat [ralt3 (rlit "show") (rlit "display") (rlit "list"), Rx.chr ' ',
             Rx.opt (rlit "the "), Rx.opt (rlit "running "), rlit "processes"]),
      ("what processes are running", rlit "what processes are running"),
      ("what(?:\\'s| is) running",
       rcat [rlit "what", ralt2 (rlit "'s") (rlit " is"), rlit " running"])],
     Effect.template "processes"⟩,
    -- top
    ⟨[("(?:show|display) (?:the )?(?:system )?(?:information|info)",
       rcat [ralt2 (rlit "show") (rlit "display"), Rx.chr ' ',
             Rx.opt (rlit "the "), Rx.opt (rlit "system "),
             ralt2 (rlit "information") (rlit "info")]),
      ("(?:show|display) (?:the )?top (?:processes|process list)",
       rcat [ralt2 (rlit "show") (rlit "display"), Rx.chr ' ',
             Rx.opt (rlit "the "), rlit "top ",
             ralt2 (rlit "processes") (rlit "process list")]),
      ("what(?:\\'s| is) (?:the )?(?:system )?(?:doing|status)",
       rcat [rlit "what", ralt2 (rlit "'s") (rlit " is"), Rx.chr ' ',
             Rx.opt (rlit "the "), Rx.opt (rlit "system "),
             ralt2 (rlit "doing") (rlit "status")])],
     Effect.template "top"⟩,
    -- make folder and move files into it
    ⟨[("create (?:a )?folder (?:called |named )?(?P<dirname>\\S+) and move all (?P<filetype>\\S+) files (?:in|into) it",
       rcat [rlit "create ", Rx.opt (rlit "a "), rlit "folder ",
             Rx.opt (ralt2 (rlit "called ") (rlit "named ")), gS "dirname",
             rlit " and move all ", gS "filetype", rlit " files ",
             ralt2 (rlit "in") (rlit "into"), rlit " it"]),
      ("move all (?P<filetype>\\S+) files (?:in)?to (?:a )?(?:new )?folder (?:called |named )?(?P<dirname>\\S+)",
       rcat [rlit "move all ", gS "filetype", rlit " files ",
             Rx.opt (rlit "in"), rlit "to ", Rx.opt (rlit "a "),
             Rx.opt (rlit "new "), rlit "folder ",
             Rx.opt (ralt2 (rlit "called ") (rlit "named ")), gS "dirname"])],
     Effect.gen (fun m =>
       ["mkdir " ++ capStr m "dirname",
        "find . -maxdepth 1 -name \"*." ++ capStr m "filetype" ++
          "\" -exec mv \x7b\x7d " ++ capStr m "dirname" ++ "/ \\;"])⟩,
    -- find and delete by type
    ⟨[("find and delete all (?P<filetype>\\S+) files",
       rcat [rlit "find and delete all ", gS "filetype", rlit " files"]),
      ("delete all (?P<filetype>\\S+) files",
       rcat [rlit "delete all ", gS "filetype", rlit " files"])],
     Effect.gen (fun m =>
       ["find . -name \"*." ++ capStr m "filetype" ++ "\" -delete"])⟩,
    -- count files
    ⟨[("count (?:the )?(?:number of )?files in (?:the )?(?:directory|folder)(?: (?P<dirname>\\S+))?",
       rcat [rlit "count ", Rx.opt (rlit "the "), Rx.opt (rlit "number of "),
             rlit "files in ", Rx.opt (rlit "the "),
             ralt2 (rlit "directory") (rlit "folder"),
             Rx.opt (Rx.cat (Rx.chr ' ') (gS "dirname"))])],
     Effect.gen (fun m => ["ls -1 " ++ capGet m "dirname" "." ++ " | wc -l"])⟩,
    -- backup
    ⟨[("create (?:a )?backup of (?:the )?file (?P<filename>\\S+)",
       rcat [rlit "create ", Rx.opt (rlit "a "), rlit "backup of ",
             Rx.opt (rlit "the "), rlit "file ", gS "filename"])],
     Effect.gen (fun m =>
       ["cp " ++ capStr m "filename" ++ " " ++ capStr m "filename" ++ ".bak"])⟩,
    -- compress
    ⟨[("compress (?:the )?(?:directory|folder) (?P<dirname>\\S+)",
       rcat [rlit "compress ", Rx.opt (rlit "the "),
             ralt2 (rlit "directory") (rlit "folder"), Rx.chr ' ', gS "dirname"])],
     Effect.gen (fun m =>
       ["tar -czvf " ++ capStr m "dirname" ++ ".tar.gz " ++ capStr m "dirname"])⟩]

/-- The template-substitution loop of `interpret`: truthy captures are
quoted when they contain a space and replace `{key}`; falsy captures remove
a leading space plus `{key}`. -/
def substTemplate (t : String) (cp : Caps) : String :=
  cp.foldl (fun command kv =>
    match kv.2 with
    | some v =>
      if v ≠ "" then
        let v :=
          if pyContains v " " ∧ ¬ (pyStartswith v "\"" ∨ pyStartswith v "'") then
            "\"" ++ v ++ "\""
          else v
        pyReplace command ("\x7b" ++ kv.1 ++ "\x7d") v
      else pyReplace command (" \x7b" ++ kv.1 ++ "\x7d") ""
    | none => pyReplace command (" \x7b" ++ kv.1 ++ "\x7d") "") t

/-- Walk the pattern table in order, trying each pattern of each rule in
order, and return the first match's effect applied to its captures. -/
def firstTableMatch (text : String) : List PatternRule → Option (List String)
  | [] => none
  | rule :: rest =>
    match firstPatMatch text rule.effect rule.pats with
    | some r => some r
    | none => firstTableMatch text rest
where
  /-- Try the alternative patterns of one rule in order. -/
  firstPatMatch (text : String) (eff : Effect) :
      List (String × Rx) → Option (List String)
    | [] => none
    | (_, rx) :: more =>
      match reMatch rx text with
      | some caps =>
        (match eff with
         | Effect.gen g => some (g caps)
         | Effect.template t => some [substTemplate t caps])
      | none => firstPatMatch text eff more

/-- Remove a leading `(?P<name>...)` group from a character list, returning
the name, the group body and the rest (the regex `\(\?P<\w+>.*?\)`:
at least one word character, then `>`, then a minimal run without a newline
up to `)`). -/
def parseNamedGroup (l : List Char) : Option (String × List Char × List Char) :=
  match l with
  | '(' :: '?' :: 'P' :: '<' :: rest =>
    let nm := rest.takeWhile (fun c => c.isAlphanum || c = '_')
    if nm = [] then none
    else
      match rest.drop nm.length with
      | '>' :: body =>
        let inner := body.takeWhile (fun c => c ≠ ')' ∧ c ≠ '\n')
        (match body.drop inner.length with
         | ')' :: rest2 => some (String.mk nm, inner, rest2)
         | _ => none)
      | _ => none
  | _ => none

/-- `re.sub(r'\(\?P<\w+>.*?\)', repl, s)` where `repl` is `"X"` when
`useName` is false and the group name when it is true. -/
def subNamedGroups (useName : Bool) : Nat → List Char → List Char
  | 0, l => l
  | _ + 1, [] => []
  | fuel + 1, c :: t =>
    match parseNamedGroup (c :: t) with
    | some (nm, _, rest) =>
      (if useName then nm.data else ['X']) ++ subNamedGroups useName fuel rest
    | none => c :: subNamedGroups useName fuel t

/-- The `simple_pattern` rendering of the fallback branch. -/
def simplePattern (p : String) : String :=
  let s := pyReplace (pyReplace (pyReplace (pyReplace p "(?:" "") ")?" "") "\\S+" "X") ".+" "X"
  String.mk (subNamedGroups false s.data.length s.data)

/-- The `example` rendering of the fallback branch. -/
def examplePattern (p : String) : String :=
  let s := pyReplace (pyReplace p "(?:" "") ")?" ""
  let s := String.mk (subNamedGroups true s.data.length s.data)
  pyReplace (pyReplace s "\\S+" "example") ".+" "example"

/-- The similar-example collection of the fallback branch: every pattern
whose simplified form is longer than 10 characters and shares a word with
the input contributes its example form. -/
def similarExamples (text : String) : List String :=
  (COMMAND_PATTERNS.foldl (fun acc rule =>
    acc ++ rule.pats.filterMap (fun pr =>
      let simple := simplePattern pr.1
      if 10 < simple.length ∧
          0 < ((pySplit text).filter (fun w => pyContains simple w)).length then
        some (examplePattern pr.1)
      else none)) [])

/-- The dangerous free-text phrases of the fallback branch. -/
def dangerous_phrases : List String :=
  ["delete all", "remove all", "format disk", "wipe", "destroy"]

/-- Everything after the first space (`text.split(' ', 1)[1]`, defined when
a space exists). -/
def afterFirstSpace (text : String) : String :=
  String.mk (((text.data).dropWhile (fun c => c ≠ ' ')).drop 1)

/-- The body of `interpret` after the cleanup `strip().lower()`: walk the
pattern table, then the pass-through, safety and suggestion fallbacks. -/
def interpretCore (t : String) : List String :=
  match firstTableMatch t COMMAND_PATTERNS with
  | some r => r
  | none =>
    if pyStartswith t "run " ∨ pyStartswith t "execute " then [afterFirstSpace t]
    else if dangerous_phrases.any (fun p => pyContains t p) then
      ["echo 'This command was blocked for safety. Please use specific commands instead of general deletion/formatting commands.'"]
    else
      let similar := similarExamples t
      if similar ≠ [] then
        ["echo 'Command not understood. Try something like: " ++
          pyJoinWith ", " (similar.take 3) ++ "'"]
      else
        ["echo 'Command not understood. Type \"help\" to see available commands or use \"!help\" for natural language examples.'"]

/-- `interpret`: empty or blank input yields `["help"]`; otherwise the input
is stripped, lowercased and matched.  The source wraps each `re.match` and
each generator call in `try/except`; neither can fire here (every table
pattern is a valid regex and the generators are total), so those handlers
are omitted from the embedding. -/
def interpret (nl_command : String) : List String :=
  if nl_command = "" ∨ pyStrip nl_command = "" then ["help"]
  else interpretCore (pyLower (pyStrip nl_command))

/-! Concrete oracle instances used by witness and counterexample theorems:
an operating system on which every filesystem primitive fails or reports
absence, and two distinguishable shells. -/

/-- A concrete oracle: nothing exists, every effectful primitive fails. -/
def O0 : Os where
  home := "/root"
  cwd := "/w"
  isWindows := false
  pathExists := fun _ => false
  isdir := fun _ => false
  listdir := fun _ => Except.error ⟨ExnKind.fileNotFoundError, "nf"⟩
  statOf := fun _ => Except.error ⟨ExnKind.osError, "stat"⟩
  access := fun _ => false
  makedirs := fun _ _ => Except.error ⟨ExnKind.permissionError, "denied"⟩
  rmdirOp := fun _ => Except.error ⟨ExnKind.fileNotFoundError, "nf"⟩
  removeFile := fun _ => Except.error ⟨ExnKind.fileNotFoundError, "nf"⟩
  rmtree := fun _ => Except.error ⟨ExnKind.fileNotFoundError, "nf"⟩
  copy2 := fun _ _ => Except.error ⟨ExnKind.fileNotFoundError, "nf"⟩
  copytree := fun _ _ => Except.error ⟨ExnKind.fileNotFoundError, "nf"⟩
  move := fun _ _ => Except.error ⟨ExnKind.fileNotFoundError, "nf"⟩
  readFile := fun _ => Except.error ⟨ExnKind.fileNotFoundError, "nf"⟩
  openAppend := fun _ => Except.error ⟨ExnKind.fileNotFoundError, "nf"⟩
  utime := fun _ => Except.error ⟨ExnKind.fileNotFoundError, "nf"⟩
  globMatch := fun _ => []
  walk := fun _ => []
  reSearch := fun _ _ => Except.ok false
  process_iter := Except.ok []
  cpu_percent := Except.ok 0
  cpu_percent_percpu := Except.ok []
  cpu_count_physical := Except.ok none
  cpu_count_logical := Except.ok none
  cpu_freq := Except.ok none
  virtual_memory := Except.error ⟨ExnKind.osError, "vm"⟩
  swap_memory := Except.error ⟨ExnKind.osError, "sw"⟩
  fmt1 := fun _ => "0.0"

/-- A shell whose subprocess always times out. -/
def sh0 : Shell := fun _ _ => Except.error ⟨ExnKind.timeoutExpired, "timeout"⟩

/-- A shell that always succeeds with distinctive output. -/
def sh1 : Shell := fun _ _ => Except.ok ("shell ran", "")

/-! Helper lemmas about the Python string primitives. -/

theorem data_mk (l : List Char) : (String.mk l).data = l := rfl

theorem append_ne_empty_left (s t : String) (h : s.data ≠ []) : s ++ t ≠ "" := by
  intro hh
  apply h
  have hd := String.ext_iff.mp hh
  have : s.data ++ t.data = [] := hd
  exact List.append_eq_nil.mp this |>.1

theorem dropWhile_idem (p : α → Bool) (l : List α) :
    (l.dropWhile p).dropWhile p = l.dropWhile p := by
  induction l with
  | nil => rfl
  | cons c t ih =>
    by_cases h : p c = true
    · simp [List.dropWhile_cons, h, ih]
    · simp at h
      simp [List.dropWhile_cons, h]

theorem trimLeft_idem (l : List Char) : trimLeft (trimLeft l) = trimLeft l :=
  dropWhile_idem pyIsWs l

theorem trimRight_idem (l : List Char) : trimRight (trimRight l) = trimRight l := by
  unfold trimRight
  rw [List.reverse_reverse, dropWhile_idem]

theorem trimRight_prefix (l : List Char) : trimRight l <+: l := by
  obtain ⟨t, ht⟩ := List.dropWhile_suffix (l := l.reverse) pyIsWs
  refine ⟨t.reverse, ?_⟩
  rw [trimRight, ← List.reverse_append, ht, List.reverse_reverse]

theorem ws_head_false_of_trimLeft_fix (a : Char) (r : List Char)
    (h : trimLeft (a :: r) = a :: r) : pyIsWs a = false := by
  by_contra hc
  simp at hc
  unfold trimLeft at h
  simp [List.dropWhile_cons, hc] at h
  have hlen := congrArg List.length h
  have hle := (List.dropWhile_sublist (l := r) pyIsWs).length_le
  simp at hlen
  omega

theorem trimLeft_trimRight (y : List Char) (h : trimLeft y = y) :
    trimLeft (trimRight y) = trimRight y := by
  obtain ⟨t, ht⟩ := trimRight_prefix y
  cases hr : trimRight y with
  | nil => rfl
  | cons a s =>
    rw [hr] at ht
    have hy : y = a :: (s ++ t) := by rw [← ht]; simp
    have ha : pyIsWs a = false := by
      apply ws_head_false_of_trimLeft_fix a (s ++ t)
      rw [← hy]
      exact h
    simp [trimLeft, List.dropWhile_cons, ha]

theorem pyStrip_idem (s : String) : pyStrip (pyStrip s) = pyStrip s := by
  unfold pyStrip
  rw [data_mk, trimLeft_trimRight (trimLeft s.data) (trimLeft_idem s.data),
    trimRight_idem]

theorem mem_of_lookupChar (ps : List (Char × Char)) (c v : Char)
    (h : lookupChar ps c = some v) : (c, v) ∈ ps := by
  induction ps with
  | nil => exact Option.noConfusion h
  | cons p t ih =>
    obtain ⟨k, w⟩ := p
    rw [lookupChar] at h
    by_cases hc : c = k
    · rw [if_pos hc] at h
      have hv : w = v := Option.some.inj h
      subst hc
      subst hv
      exact List.mem_cons_self _ _
    · rw [if_neg hc] at h
      exact List.mem_cons_of_mem _ (ih h)

theorem ulPairs_facts : ∀ p ∈ ulPairs,
    pyIsWs p.1 = false ∧ pyIsWs p.2 = false ∧ lookupChar ulPairs p.2 = none := by
  decide

theorem ws_toLower (c : Char) : pyIsWs (pyToLower c) = pyIsWs c := by
  unfold pyToLower
  cases h : lookupChar ulPairs c with
  | none => rfl
  | some v =>
    have hm := ulPairs_facts (c, v) (mem_of_lookupChar ulPairs c v h)
    simp only [Option.getD_some]
    rw [hm.2.1, hm.1]

theorem toLower_idem (c : Char) : pyToLower (pyToLower c) = pyToLower c := by
  unfold pyToLower
  cases h : lookupChar ulPairs c with
  | none =>
    simp only [Option.getD_none]
    rw [h]
    rfl
  | some v =>
    have hm := ulPairs_facts (c, v) (mem_of_lookupChar ulPairs c v h)
    simp only [Option.getD_some]
    rw [hm.2.2]
    rfl

theorem trimLeft_map (l : List Char) :
    trimLeft (l.map pyToLower) = (trimLeft l).map pyToLower := by
  unfold trimLeft
  rw [List.dropWhile_map]
  have hp : pyIsWs ∘ pyToLower = pyIsWs := funext ws_toLower
  rw [hp]

theorem trimRight_map (l : List Char) :
    trimRight (l.map pyToLower) = (trimRight l).map pyToLower := by
  unfold trimRight
  have hp : pyIsWs ∘ pyToLower = pyIsWs := funext ws_toLower
  simp [← List.map_reverse, List.dropWhile_map, hp]

theorem pyStrip_pyLower (s : String) :
    pyStrip (pyLower s) = pyLower (pyStrip s) := by
  unfold pyStrip pyLower
  rw [data_mk, data_mk, trimLeft_map, trimRight_map]

theorem pyLower_idem (s : String) : pyLower (pyLower s) = pyLower s := by
  unfold pyLower
  rw [data_mk, List.map_map]
  have hp : pyToLower ∘ pyToLower = pyToLower := funext toLower_idem
  rw [hp]

theorem pyLower_eq_empty_iff (s : String) : pyLower s = "" ↔ s = "" := by
  rw [String.ext_iff, String.ext_iff]
  unfold pyLower
  rw [data_mk]
  show s.data.map pyToLower = [] ↔ s.data = ([] : List Char)
  exact List.map_eq_nil_iff

theorem pyStrip_empty_of_eq_empty (s : String) (h : s = "") : pyStrip s = "" := by
  rw [h]
  rfl

theorem all_ws_of_pyStrip_empty (s : String) (h : pyStrip s = "") :
    ∀ x ∈ s.data, pyIsWs x = true := by
  have hdata : trimRight (trimLeft s.data) = [] := String.ext_iff.mp h
  have htl : trimLeft s.data = [] := by
    cases hl : trimLeft s.data with
    | nil => rfl
    | cons a r =>
      exfalso
      have ha : pyIsWs a = false :=
        ws_head_false_of_trimLeft_fix a r (by rw [← hl]; exact trimLeft_idem s.data)
      rw [hl] at hdata
      have : ∀ x ∈ (a :: r : List Char), pyIsWs x = true := by
        intro x hx
        have h1 : (a :: r : List Char).reverse.dropWhile pyIsWs = [] := by
          have := congrArg List.reverse hdata
          rw [trimRight, List.reverse_reverse] at this
          exact this
        have h2 := List.dropWhile_eq_nil_iff.mp h1
        have hx' : x ∈ (a :: r : List Char).reverse := by
          rw [List.mem_reverse]
          exact hx
        exact h2 x hx'
      rw [this a (by simp)] at ha
      exact Bool.noConfusion ha
  exact List.dropWhile_eq_nil_iff.mp htl

theorem pySplitF_nil_of_ws (fuel : Nat) :
    ∀ l : List Char, (∀ x ∈ l, pyIsWs x = true) → pySplitF fuel l = [] := by
  induction fuel with
  | zero => intro l _; rfl
  | succ n ih =>
    intro l h
    cases l with
    | nil => rfl
    | cons c t =>
      rw [pySplitF]
      simp [h c (by simp)]
      exact ih t (fun x hx => h x (by simp [hx]))

theorem pySplit_nil_of_pyStrip_empty (s : String) (h : pyStrip s = "") :
    pySplit s = [] := by
  unfold pySplit
  rw [pySplitF_nil_of_ws s.data.length s.data (all_ws_of_pyStrip_empty s h)]
  rfl

theorem cmdOf_empty_of_pyStrip_empty (s : String) (h : pyStrip s = "") :
    cmdOf s = "" := by
  unfold cmdOf
  rw [pySplit_nil_of_pyStrip_empty s h]

theorem execute_inner_ok_of_cmd_empty (command current_dir : String) (o : Os)
    (sh : Shell) (h : cmdOf command = "") :
    ∃ r, execute_inner command current_dir o sh = Except.ok r := by
  unfold execute_inner
  rw [h]
  have hsug : get_close_matches "" availableNames 3 3 5 = [] := by decide
  simp only [hsug]
  by_cases hd : dangerousHit command = true
  · simp [hd]
  · simp at hd
    simp [hd]

/-- Claim C1: for every command line string and working directory, the
dispatcher's `execute` returns a result with a string output and never
propagates an exception to its caller; when the body inside its outer guard
raises, the result's output is `"Error executing command: "` followed by the
exception message (and no directory change is reported). -/
theorem C1_dispatcher_catches_all :
    (∀ command current_dir o sh, ∃ r,
        execute_command command current_dir o sh = Except.ok r) ∧
    (∀ command current_dir o sh e,
        execute_inner command current_dir o sh = Except.error e →
        execute_command command current_dir o sh =
          Except.ok ⟨"Error executing command: " ++ e.msg, none⟩) := by
  constructor
  · intro command current_dir o sh
    unfold execute_command
    by_cases h : command = "" ∨ pyStrip command = ""
    · rw [if_pos h]
      exact ⟨_, rfl⟩
    · rw [if_neg h]
      exact ⟨_, rfl⟩
  · intro command current_dir o sh e herr
    unfold execute_command
    by_cases h : command = "" ∨ pyStrip command = ""
    · exfalso
      have hcmd : cmdOf command = "" := by
        rcases h with h | h
        · exact cmdOf_empty_of_pyStrip_empty command (pyStrip_empty_of_eq_empty command h)
        · exact cmdOf_empty_of_pyStrip_empty command h
      obtain ⟨r, hr⟩ := execute_inner_ok_of_cmd_empty command current_dir o sh hcmd
      rw [hr] at herr
      exact Except.noConfusion herr
    · rw [if_neg h]
      have hne : ("Error executing command: " ++ e.msg) ≠ "" :=
        append_ne_empty_left _ _ (by decide)
      simp only [herr, hne]
      simp

/-- Claim C1 witness: a concrete `cd` to a missing directory surfaces the
handler's `FileNotFoundError` as the guarded error string. -/
theorem C1_witness :
    execute_command "cd nope" "/a" O0 sh0 =
      Except.ok ⟨"Error executing command: cd: nope: No such file or directory", none⟩ :=
  C1_dispatcher_catches_all.2 "cd nope" "/a" O0 sh0
    ⟨ExnKind.fileNotFoundError, "cd: nope: No such file or directory"⟩ (by decide)

/-- Claim C2: on `"delete all txt files"` the translator returns `["rm all"]`:
the earlier generic delete rule `(?:remove|delete) (?P<filename>\S+)` matches
first (prefix-anchored), capturing `filename = "all"`, so the dedicated
`delete all <type> files` generator rule is never reached for this input —
although the very same generator rule does fire on its other phrasing
`"find and delete all txt files"` and produces the find-based deletion. -/
theorem C2_delete_all_txt_eval :
    interpret "delete all txt files" = ["rm all"] ∧
    interpret "find and delete all txt files" = ["find . -name \"*.txt\" -delete"] := by
  constructor
  · decide
  · decide

/-- Claim C3 counterexample: `handle_cd` on a missing target raises
`FileNotFoundError` out of the handler instead of returning a string, so not
every built-in handler traps its own failure modes. -/
theorem C3_counterexample :
    handle_cd ["missing"] "/a/b" O0 =
      Except.error ⟨ExnKind.fileNotFoundError, "cd: missing: No such file or directory"⟩ := by
  decide

/-- Claim C3 (amended): every built-in handler traps its own failures and
returns a string, except that `cd` raises `FileNotFoundError` /
`NotADirectoryError` by design and `cp` / `mv` can raise `IndexError` when
flag filtering leaves no operand; the dispatcher's outer guard catches them
all, so `execute` never propagates an exception. -/
theorem C3_handlers_amended :
    (∀ args current_dir o e, handle_cd args current_dir o = Except.error e →
        e.kind = ExnKind.fileNotFoundError ∨ e.kind = ExnKind.notADirectoryError) ∧
    (∀ args current_dir o e, handle_cp args current_dir o = Except.error e →
        e = indexError) ∧
    (∀ args current_dir o e, handle_mv args current_dir o = Except.error e →
        e = indexError) ∧
    (∀ command current_dir o sh, ∃ r,
        execute_command command current_dir o sh = Except.ok r) := by
  refine ⟨?_, ?_, ?_, ?_⟩
  · intro args current_dir o e herr
    unfold handle_cd at herr
    cases args with
    | nil => exact Except.noConfusion herr
    | cons path rest =>
      repeat' split at herr
      all_goals
        first
        | exact Except.noConfusion herr
        | (have hsub := (Except.error.inj herr).symm
           subst hsub
           first
           | exact Or.inl rfl
           | exact Or.inr rfl)
  · intro args current_dir o e herr
    unfold handle_cp at herr
    split at herr
    · exact Except.noConfusion herr
    · cases hp : args.filter (fun a => ¬ pyStartswith a "-") with
      | nil =>
        rw [hp] at herr
        exact (Except.error.inj herr).symm
      | cons s t =>
        cases t with
        | nil =>
          rw [hp] at herr
          exact Except.noConfusion herr
        | cons d2 rest =>
          rw [hp] at herr
          exact absurd herr (by simp)
  · intro args current_dir o e herr
    unfold handle_mv at herr
    split at herr
    · exact Except.noConfusion herr
    · cases hp : args.filter (fun a => ¬ pyStartswith a "-") with
      | nil =>
        rw [hp] at herr
        exact (Except.error.inj herr).symm
      | cons s t =>
        cases t with
        | nil =>
          rw [hp] at herr
          exact Except.noConfusion herr
        | cons d2 rest =>
          rw [hp] at herr
          exact absurd herr (by simp)
  · intro command current_dir o sh
    unfold execute_command
    by_cases h : command = "" ∨ pyStrip command = ""
    · rw [if_pos h]
      exact ⟨_, rfl⟩
    · rw [if_neg h]
      exact ⟨_, rfl⟩

/-- Claim C3 witness: the amended classification applied to the concrete
raising run of `handle_cd`. -/
theorem C3_witness :
    (⟨ExnKind.fileNotFoundError, "cd: missing: No such file or directory"⟩ : PyExn).kind
        = ExnKind.fileNotFoundError ∨
      (⟨ExnKind.fileNotFoundError, "cd: missing: No such file or directory"⟩ : PyExn).kind
        = ExnKind.notADirectoryError :=
  C3_handlers_amended.1 ["missing"] "/a/b" O0 _ (by decide)

theorem filter_flag_cons (f : String) (args : List String)
    (hf : pyStartswith f "-" = true) :
    (f :: args).filter (fun a => ¬ pyStartswith a "-") =
      args.filter (fun a => ¬ pyStartswith a "-") := by
  simp [List.filter_cons, hf]

theorem contains_cons_ne (f a : String) (args : List String) (h : f ≠ a) :
    (f :: args).contains a = args.contains a := by
  have h2 : a ≠ f := Ne.symm h
  simp [List.contains_cons, h2]

/-- Claim C4 counterexample: `handle_cat` does not filter flag-shaped
arguments; a leading `-n` is treated as an operand and changes the output. -/
theorem C4_counterexample :
    handle_cat ["-n", "notes.txt"] "/h" O0 ≠ handle_cat ["notes.txt"] "/h" O0 := by
  decide

/-- Claim C4 (amended): `mkdir`, `rm`, `cp` and `mv` filter flag-shaped
arguments out of their operand lists with a starts-with-dash predicate (so an
unknown dash-prefixed argument is ignored there, for `cp`/`mv` once two
non-dash operands remain), and `ls` consumes dash arguments as flag bundles;
`cat` performs no such filtering and treats a dash-prefixed argument as a
file operand (see the counterexample). -/
theorem C4_flag_filtering_amended :
    (∀ f args d o, pyStartswith f "-" = true → f ≠ "-p" →
        handle_mkdir (f :: args) d o = handle_mkdir args d o) ∧
    (∀ f args d o, pyStartswith f "-" = true → f ≠ "-r" → f ≠ "-rf" → f ≠ "-f" →
        handle_rm (f :: args) d o = handle_rm args d o) ∧
    (∀ f args d o, pyStartswith f "-" = true → f ≠ "-r" → f ≠ "-R" →
        2 ≤ (args.filter (fun a => ¬ pyStartswith a "-")).length →
        handle_cp (f :: args) d o = handle_cp args d o) ∧
    (∀ f args d o, pyStartswith f "-" = true →
        2 ≤ (args.filter (fun a => ¬ pyStartswith a "-")).length →
        handle_mv (f :: args) d o = handle_mv args d o) ∧
    (∀ f args d o, pyStartswith f "-" = true → pyContains f "a" = false →
        pyContains f "l" = false →
        handle_ls (f :: args) d o = handle_ls args d o) := by
  have hlenle : ∀ (args : List String),
      (args.filter (fun a => ¬ pyStartswith a "-")).length ≤ args.length :=
    fun args => List.length_filter_le _ args
  refine ⟨?_, ?_, ?_, ?_, ?_⟩
  · intro f args d o hf hp
    unfold handle_mkdir
    rw [if_neg (by simp : ¬(f :: args = []))]
    rw [contains_cons_ne f "-p" args hp, filter_flag_cons f args hf]
    by_cases hargs : args = []
    · subst hargs
      simp
    · rw [if_neg hargs]
  · intro f args d o hf h1 h2 h3
    unfold handle_rm
    rw [if_neg (by simp : ¬(f :: args = []))]
    rw [contains_cons_ne f "-r" args h1, contains_cons_ne f "-rf" args h2,
      contains_cons_ne f "-f" args h3, filter_flag_cons f args hf]
    by_cases hargs : args = []
    · subst hargs
      simp
    · rw [if_neg hargs]
  · intro f args d o hf h1 h2 hlen
    unfold handle_cp
    have ha : 2 ≤ args.length := le_trans hlen (hlenle args)
    rw [if_neg (by simp; omega : ¬((f :: args).length < 2)),
      if_neg (by omega : ¬(args.length < 2))]
    rw [contains_cons_ne f "-r" args h1, contains_cons_ne f "-R" args h2,
      filter_flag_cons f args hf]
  · intro f args d o hf hlen
    unfold handle_mv
    have ha : 2 ≤ args.length := le_trans hlen (hlenle args)
    rw [if_neg (by simp; omega : ¬((f :: args).length < 2)),
      if_neg (by omega : ¬(args.length < 2))]
    rw [filter_flag_cons f args hf]
  · intro f args d o hf ha hl
    unfold handle_ls
    have hstep : lsParse d (d, false, false) f = (d, false, false) := by
      simp [lsParse, hf, ha, hl]
    rw [List.foldl_cons, hstep]
    cases args with
    | nil =>
      simp [hf]
    | cons a t =>
      rw [List.getLast?_cons_cons]

/-- Claim C4 witness: the amended `mkdir` clause at a concrete unknown flag. -/
theorem C4_witness :
    handle_mkdir ["-x", "d1"] "/h" O0 = handle_mkdir ["d1"] "/h" O0 :=
  C4_flag_filtering_amended.1 "-x" ["d1"] "/h" O0 (by decide) (by decide)

theorem execute_pwd (current_dir : String) (o : Os) (sh : Shell) :
    execute_command "pwd" current_dir o sh = Except.ok ⟨current_dir, none⟩ := by
  by_cases hd : current_dir = ""
  · subst hd
    rfl
  · unfold execute_command
    rw [if_neg (by decide : ¬(("pwd" : String) = "" ∨ pyStrip "pwd" = ""))]
    have hinner : execute_inner "pwd" current_dir o sh =
        Except.ok ⟨handle_pwd current_dir, none⟩ := rfl
    rw [hinner]
    simp only [handle_pwd]
    rw [if_neg (fun hcon => hd hcon.1)]

/-- Claim C5: `cd` with no arguments yields the host home directory; `cd ..`
yields the string parent of the working directory (`/a/b` gives `/a`); `pwd`
prints the working directory it is given, so the directory a successful `cd`
reports is exactly what a subsequent `pwd` threaded through that directory
prints. -/
theorem C5_cd_pwd_semantics :
    (∀ current_dir o, handle_cd [] current_dir o = Except.ok (Os.home o)) ∧
    (∀ current_dir o, handle_cd [".."] current_dir o =
        Except.ok (pyDirname current_dir)) ∧
    (∀ o : Os, handle_cd [".."] "/a/b" o = Except.ok "/a") ∧
    (∀ current_dir o sh, execute_command "pwd" current_dir o sh =
        Except.ok ⟨current_dir, none⟩) ∧
    (∀ command current_dir o sh r nd,
        execute_command command current_dir o sh = Except.ok r →
        r.new_dir = some nd →
        execute_command "pwd" nd o sh = Except.ok ⟨nd, none⟩) := by
  refine ⟨?_, ?_, ?_, ?_, ?_⟩
  · intro current_dir o
    rfl
  · intro current_dir o
    rfl
  · intro o
    rfl
  · intro current_dir o sh
    exact execute_pwd current_dir o sh
  · intro command current_dir o sh r nd _ _
    exact execute_pwd nd o sh

/-- Claim C5 witness: threading the concrete `cd ..` from `/a/b` (which
reports new directory `/a`) into `pwd` prints `/a`. -/
theorem C5_witness :
    execute_command "pwd" "/a" O0 sh0 = Except.ok ⟨"/a", none⟩ :=
  C5_cd_pwd_semantics.2.2.2.2 "cd .." "/a/b" O0 sh0
    ⟨"Changed directory to: /a", some "/a"⟩ "/a" (by decide) rfl

theorem cmd_ne_of_not_dispatched (cmd : String) (w : Bool)
    (h1 : isDispatched cmd w = false) (s : String)
    (hs : ∀ w', isDispatched s w' = true) : ¬(cmd = s) := by
  intro h
  rw [h, hs w] at h1
  exact Bool.noConfusion h1

theorem execute_inner_blocked (command current_dir : String) (o : Os) (sh : Shell)
    (h1 : isDispatched (cmdOf command) o.isWindows = false)
    (h2 : get_close_matches (cmdOf command) availableNames 3 3 5 = [])
    (h3 : dangerousHit command = true) :
    execute_inner command current_dir o sh =
      Except.ok ⟨"Error: Potentially dangerous command '" ++ command ++
        "' blocked for safety reasons.", none⟩ := by
  simp only [execute_inner]
  have hne : ∀ s, (∀ w', isDispatched s w' = true) → ¬(cmdOf command = s) :=
    fun s hs => cmd_ne_of_not_dispatched _ _ h1 s hs
  have hc1 : ¬(cmdOf command = "ls" ∨ (cmdOf command = "dir" ∧ o.isWindows = true)) := by
    rintro (h | ⟨h, hw⟩)
    · exact hne "ls" (by decide) h
    · rw [h, hw] at h1
      exact absurd h1 (by decide)
  rw [if_neg hc1, if_neg (hne "cd" (by decide)), if_neg (hne "pwd" (by decide)),
    if_neg (hne "mkdir" (by decide)), if_neg (hne "rmdir" (by decide)),
    if_neg (hne "rm" (by decide)), if_neg (hne "cp" (by decide)),
    if_neg (hne "mv" (by decide)), if_neg (hne "cat" (by decide)),
    if_neg (hne "echo" (by decide)), if_neg (hne "touch" (by decide)),
    if_neg (hne "grep" (by decide)), if_neg (hne "find" (by decide)),
    if_neg (hne "ps" (by decide)), if_neg (hne "top" (by decide)),
    if_neg (hne "clear" (by decide)), if_neg (hne "test" (by decide)),
    if_neg (hne "help" (by decide)), if_neg (hne "exit" (by decide)),
    if_neg (hne "cpu" (by decide)), if_neg (hne "memory" (by decide)),
    if_neg (hne "processes" (by decide))]
  rw [h2]
  simp [h3]

theorem execute_blocked (command current_dir : String) (o : Os) (sh : Shell)
    (h0 : pyStrip command ≠ "")
    (h1 : isDispatched (cmdOf command) o.isWindows = false)
    (h2 : get_close_matches (cmdOf command) availableNames 3 3 5 = [])
    (h3 : dangerousHit command = true) :
    execute_command command current_dir o sh =
      Except.ok ⟨"Error: Potentially dangerous command '" ++ command ++
        "' blocked for safety reasons.", none⟩ := by
  have hemp : ¬(command = "" ∨ pyStrip command = "") := by
    rintro (hc | hc)
    · exact h0 (pyStrip_empty_of_eq_empty command hc)
    · exact h0 hc
  have hne : ("Error: Potentially dangerous command '" ++ command ++
      "' blocked for safety reasons.") ≠ "" := by
    intro hh
    have hd := String.ext_iff.mp hh
    have hd2 : ("Error: Potentially dangerous command '".data ++ command.data) ++
        "' blocked for safety reasons.".data = [] := hd
    have := (List.append_eq_nil.mp hd2).1
    have := (List.append_eq_nil.mp this).1
    exact absurd this (by decide)
  unfold execute_command
  rw [if_neg hemp]
  rw [execute_inner_blocked command current_dir o sh h1 h2 h3]
  simp only []
  rw [if_neg (fun hcon => hne hcon.1)]

/-- Claim C6: when the first token selects no dispatch branch and the
near-name suggestion list is empty, a raw line containing a denylist
substring is rejected with the blocked-for-safety message, and the result is
the same for every shell collaborator — the host shell is never invoked. -/
theorem C6_denylist_blocks :
    ∀ command current_dir o (sh sh' : Shell),
      pyStrip command ≠ "" →
      isDispatched (cmdOf command) o.isWindows = false →
      get_close_matches (cmdOf command) availableNames 3 3 5 = [] →
      dangerousHit command = true →
      execute_command command current_dir o sh =
        Except.ok ⟨"Error: Potentially dangerous command '" ++ command ++
          "' blocked for safety reasons.", none⟩ ∧
      execute_command command current_dir o sh =
        execute_command command current_dir o sh' := by
  intro command current_dir o sh sh' h0 h1 h2 h3
  refine ⟨execute_blocked command current_dir o sh h0 h1 h2 h3, ?_⟩
  rw [execute_blocked command current_dir o sh h0 h1 h2 h3,
    execute_blocked command current_dir o sh' h0 h1 h2 h3]

/-- Claim C6 witness: `mkfs /dev/sda1` is not a built-in, has no near-name
suggestions, hits the denylist, and is blocked identically under two
different shells. -/
theorem C6_witness :
    execute_command "mkfs /dev/sda1" "/root" O0 sh0 =
        Except.ok ⟨"Error: Potentially dangerous command 'mkfs /dev/sda1' blocked for safety reasons.", none⟩ ∧
      execute_command "mkfs /dev/sda1" "/root" O0 sh0 =
        execute_command "mkfs /dev/sda1" "/root" O0 sh1 :=
  C6_denylist_blocks "mkfs /dev/sda1" "/root" O0 sh0 sh1 (by decide) (by decide)
    (by decide) (by decide)

/-- Claim C9 counterexample: `cdd dd` is not a built-in and contains the
substring `dd`, yet it is not blocked with the dangerous-command message —
the near-name suggestion branch answers first. -/
theorem C9_counterexample :
    execute_command "cdd dd" "/w" O0 sh0 =
        Except.ok ⟨"Command 'cdd' not found. Did you mean: cd?", none⟩ ∧
      ("Command 'cdd' not found. Did you mean: cd?" ≠
        "Error: Potentially dangerous command 'cdd dd' blocked for safety reasons.") := by
  constructor
  · decide
  · decide

/-- Claim C9 (amended): the denylist test is a plain substring match on the
lowercased raw line, so any non-built-in command *with no near-name
suggestions* whose text contains `dd`, `mkfs` or `format` anywhere —
including benign lines such as `git add .` — is blocked with the
dangerous-command message and never delegated to the host shell. -/
theorem C9_substring_blocking_amended :
    ∀ command current_dir o (sh sh' : Shell),
      pyStrip command ≠ "" →
      isDispatched (cmdOf command) o.isWindows = false →
      get_close_matches (cmdOf command) availableNames 3 3 5 = [] →
      (pyContains (pyLower command) "dd" || pyContains (pyLower command) "mkfs" ||
        pyContains (pyLower command) "format") = true →
      execute_command command current_dir o sh =
        Except.ok ⟨"Error: Potentially dangerous command '" ++ command ++
          "' blocked for safety reasons.", none⟩ ∧
      execute_command command current_dir o sh =
        execute_command command current_dir o sh' := by
  intro command current_dir o sh sh' h0 h1 h2 h3
  have hdang : dangerousHit command = true := by
    unfold dangerousHit dangerous_commands
    simp only [List.any_cons, List.any_nil, Bool.or_false]
    rcases Bool.or_eq_true_iff.mp h3 with h | h
    · rcases Bool.or_eq_true_iff.mp h with h | h
      · rw [h]
        simp
      · rw [h]
        simp
    · rw [h]
      simp
  refine ⟨execute_blocked command current_dir o sh h0 h1 h2 hdang, ?_⟩
  rw [execute_blocked command current_dir o sh h0 h1 h2 hdang,
    execute_blocked command current_dir o sh' h0 h1 h2 hdang]

/-- Claim C9 witness: the benign line `git add .` (substring `dd` inside
`add`) is blocked and shell-independent. -/
theorem C9_witness :
    execute_command "git add ." "/w" O0 sh0 =
        Except.ok ⟨"Error: Potentially dangerous command 'git add .' blocked for safety reasons.", none⟩ ∧
      execute_command "git add ." "/w" O0 sh0 =
        execute_command "git add ." "/w" O0 sh1 :=
  C9_substring_blocking_amended "git add ." "/w" O0 sh0 sh1 (by decide) (by decide)
    (by decide) (by decide)

theorem execute_inner_dispatch_ls (command d : String) (o : Os) (sh : Shell)
    (h : cmdOf command = "ls") :
    execute_inner command d o sh =
      Except.ok ⟨handle_ls (argsOf command) d o, none⟩ := by
  simp only [execute_inner]
  rw [if_pos (Or.inl h)]

theorem execute_inner_dispatch_pwd (command d : String) (o : Os) (sh : Shell)
    (h : cmdOf command = "pwd") :
    execute_inner command d o sh = Except.ok ⟨handle_pwd d, none⟩ := by
  simp only [execute_inner]
  have hne2 : ∀ s : String, ¬(("pwd" : String) = s) → ¬(cmdOf command = s) :=
    fun s hs hh => hs (h.symm.trans hh)
  have hc1 : ¬(cmdOf command = "ls" ∨ (cmdOf command = "dir" ∧ o.isWindows = true)) := by
    rintro (hh | ⟨hh, _⟩)
    · exact hne2 "ls" (by decide) hh
    · exact hne2 "dir" (by decide) hh
  rw [if_neg hc1, if_neg (hne2 "cd" (by decide)), if_pos h]

theorem execute_inner_dispatch_help (command d : String) (o : Os) (sh : Shell)
    (h : cmdOf command = "help") :
    execute_inner command d o sh =
      Except.ok ⟨handle_help (argsOf command), none⟩ := by
  simp only [execute_inner]
  have hne2 : ∀ s : String, ¬(("help" : String) = s) → ¬(cmdOf command = s) :=
    fun s hs hh => hs (h.symm.trans hh)
  have hc1 : ¬(cmdOf command = "ls" ∨ (cmdOf command = "dir" ∧ o.isWindows = true)) := by
    rintro (hh | ⟨hh, _⟩)
    · exact hne2 "ls" (by decide) hh
    · exact hne2 "dir" (by decide) hh
  rw [if_neg hc1, if_neg (hne2 "cd" (by decide)), if_neg (hne2 "pwd" (by decide)),
    if_neg (hne2 "mkdir" (by decide)), if_neg (hne2 "rmdir" (by decide)),
    if_neg (hne2 "rm" (by decide)), if_neg (hne2 "cp" (by decide)),
    if_neg (hne2 "mv" (by decide)), if_neg (hne2 "cat" (by decide)),
    if_neg (hne2 "echo" (by decide)), if_neg (hne2 "touch" (by decide)),
    if_neg (hne2 "grep" (by decide)), if_neg (hne2 "find" (by decide)),
    if_neg (hne2 "ps" (by decide)), if_neg (hne2 "top" (by decide)),
    if_neg (hne2 "clear" (by decide)), if_neg (hne2 "test" (by decide)),
    if_pos h]

theorem not_empty_input_of_cmd (command s : String) (h : cmdOf command = s)
    (hs : s ≠ "") : ¬(command = "" ∨ pyStrip command = "") := by
  rintro (hc | hc)
  · apply hs
    rw [← h]
    exact cmdOf_empty_of_pyStrip_empty command (pyStrip_empty_of_eq_empty command hc)
  · apply hs
    rw [← h]
    exact cmdOf_empty_of_pyStrip_empty command hc

/-- Claim C8 counterexample: `echo` with no arguments yields an empty output
through the dispatcher — the canned default for `echo` at the fixup stage is
the empty string, so the output is not a non-empty string for all four
listed built-ins. -/
theorem C8_counterexample :
    execute_command "echo" "/home/user" O0 sh0 = Except.ok ⟨"", none⟩ := by
  decide

/-- Claim C8 (amended): for `ls` and `help` the dispatcher's fixup stage
guarantees a non-empty output (canned `"(empty directory)"` / help banner),
and for `pwd` the output is the working directory, non-empty whenever that
is; `echo`'s canned default is the empty string (see the counterexample). -/
theorem C8_canned_output_amended :
    ∀ command current_dir o sh,
      (cmdOf command = "ls" ∨ cmdOf command = "help" ∨
        (cmdOf command = "pwd" ∧ current_dir ≠ "")) →
      ∃ r, execute_command command current_dir o sh = Except.ok r ∧
        r.output ≠ "" := by
  intro command current_dir o sh hyp
  rcases hyp with hcmd | hcmd | ⟨hcmd, hd⟩
  · have hemp := not_empty_input_of_cmd command "ls" hcmd (by decide)
    have hinner := execute_inner_dispatch_ls command current_dir o sh hcmd
    by_cases hout : handle_ls (argsOf command) current_dir o = ""
    · refine ⟨⟨"(empty directory)", none⟩, ?_, by decide⟩
      unfold execute_command
      rw [if_neg hemp]
      simp [hinner, hout, hcmd]
    · refine ⟨⟨handle_ls (argsOf command) current_dir o, none⟩, ?_, hout⟩
      unfold execute_command
      rw [if_neg hemp]
      simp [hinner, hout, hcmd]
  · have hemp := not_empty_input_of_cmd command "help" hcmd (by decide)
    have hinner := execute_inner_dispatch_help command current_dir o sh hcmd
    by_cases hout : handle_help (argsOf command) = ""
    · refine ⟨⟨"Type 'help' for available commands", none⟩, ?_, by decide⟩
      unfold execute_command
      rw [if_neg hemp]
      simp [hinner, hout, hcmd]
    · refine ⟨⟨handle_help (argsOf command), none⟩, ?_, hout⟩
      unfold execute_command
      rw [if_neg hemp]
      simp [hinner, hout, hcmd]
  · have hemp := not_empty_input_of_cmd command "pwd" hcmd (by decide)
    have hinner := execute_inner_dispatch_pwd command current_dir o sh hcmd
    refine ⟨⟨current_dir, none⟩, ?_, hd⟩
    unfold execute_command
    rw [if_neg hemp]
    simp [hinner, handle_pwd, hcmd, hd]

/-- Claim C8 witness: the amended theorem at the concrete invocation `pwd`
in `/x`. -/
theorem C8_witness :
    ∃ r, execute_command "pwd" "/x" O0 sh0 = Except.ok r ∧ r.output ≠ "" :=
  C8_canned_output_amended "pwd" "/x" O0 sh0 (Or.inr (Or.inr ⟨by decide, by decide⟩))

/-- Claim C10: the translator lowercases and trims before matching, so
interpreting any text equals interpreting its trimmed lowercased form, and
captured names come out lowercased: `"create file README.txt"` yields
`["touch readme.txt"]`. -/
theorem C10_lossy_case_insensitivity :
    (∀ text, interpret text = interpret (pyStrip (pyLower text))) ∧
    interpret "create file README.txt" = ["touch readme.txt"] := by
  constructor
  · intro text
    have K1 : pyStrip (pyLower text) = pyLower (pyStrip text) := pyStrip_pyLower text
    unfold interpret
    by_cases h : pyStrip text = ""
    · rw [if_pos (Or.inr h), if_pos (Or.inl (show pyStrip (pyLower text) = "" by rw [K1, h]; rfl))]
    · have hCL : ¬(text = "" ∨ pyStrip text = "") := by
        rintro (hc | hc)
        · exact h (show pyStrip text = "" by rw [hc]; rfl)
        · exact h hc
      have hCR : ¬(pyStrip (pyLower text) = "" ∨
          pyStrip (pyStrip (pyLower text)) = "") := by
        rw [pyStrip_idem, K1]
        rintro (hc | hc) <;> exact h ((pyLower_eq_empty_iff _).mp hc)
      rw [if_neg hCL, if_neg hCR, pyStrip_idem, K1, pyLower_idem]
  · decide

set_option maxRecDepth 100000 in
/-- Claim C7: `"list files"` matches no rule of the pattern table (the `ls`
rule's first pattern requires `files in`/`files of`), so the translator
falls through to the "Command not understood" suggestion echo instead of
producing an `ls` command. -/
theorem C7_list_files_eval :
    interpret "list files" =
      ["echo 'Command not understood. Try something like: show|display|list) the files|contents) in|of) the directory|folder dirname, show|display|list) the directory|folder) dirname, find all files named|called) filename'"] := by
  decide

end Terminal
